import Mathlib

/-!
Verification of the gatechain/x402 Go SDK core against its specification.

The development shallowly embeds the payment-authorization signing path
(go/mechanisms/evm/exact/client/scheme.go, go/mechanisms/evm/constants.go)
and the facilitator wire client (go/http/facilitator_client.go) as pure
Lean functions.  Bytes are lists of naturals (each < 256), Go strings are
Lean strings, machine integers are Nat/Int with explicit reductions where
overflow matters, and fallible Go code returns Option/Except.  Effects
(randomness, clocks, the signing capability, environment variables and the
HTTP transport) are passed in explicitly as parameters, mirroring how the
Go code consumes them.
-/

namespace X402

/-- Byte strings: lists of naturals, each value < 256 by construction. -/
abbrev Bytes := List Nat

/-- Go []byte(s) conversion, specialised to the ASCII strings this SDK
uses (for ASCII text the UTF-8 bytes coincide with the code points). -/
def strBytes (s : String) : Bytes := s.data.map Char.toNat

/-- Fuel-driven helper for natToBEBytes (structural recursion so that it
reduces inside the kernel; any fuel at least the argument is enough). -/
def natToBEBytesAux : Nat → Nat → Bytes
  | 0, _ => []
  | fuel + 1, n => if n = 0 then [] else natToBEBytesAux fuel (n / 256) ++ [n % 256]

/-- Minimal big-endian byte encoding of a natural number, mirroring
Go math/big Int.Bytes(): the empty slice for 0, no leading zeros. -/
def natToBEBytes (n : Nat) : Bytes := natToBEBytesAux n n

/-- go-ethereum common.LeftPadBytes: pads with leading zeros up to length
l, and returns the slice unchanged when it is already at least l long. -/
def leftPadBytes (slice : Bytes) (l : Nat) : Bytes :=
  if l ≤ slice.length then slice
  else List.replicate (l - slice.length) 0 ++ slice

/-- Fixed-width big-endian byte encoding (the spec's leftPad32 of an
unsigned integer, written independently of the Go helpers): k bytes,
most significant first. -/
def beBytesFixed (k : Nat) (n : Nat) : Bytes :=
  match k with
  | 0 => []
  | k + 1 => beBytesFixed k (n / 256) ++ [n % 256]

/-- The spec-side 32-byte big-endian encoding used in the digest formula. -/
def beBytes32 (n : Nat) : Bytes := beBytesFixed 32 n

/-- Value of a hexadecimal digit character, none for non-hex characters. -/
def hexDigitVal (c : Char) : Option Nat :=
  if 48 ≤ c.toNat ∧ c.toNat ≤ 57 then some (c.toNat - 48)
  else if 97 ≤ c.toNat ∧ c.toNat ≤ 102 then some (c.toNat - 87)
  else if 65 ≤ c.toNat ∧ c.toNat ≤ 70 then some (c.toNat - 55)
  else none

/-- Strict hex decoding of a character list: fails on odd length or any
non-hex character (Go encoding/hex DecodeString's error conditions). -/
def hexDecodeStrict : List Char → Option Bytes
  | [] => some []
  | [_] => none
  | c1 :: c2 :: rest =>
    match hexDigitVal c1, hexDigitVal c2, hexDecodeStrict rest with
    | some h, some l, some bs => some ((h * 16 + l) :: bs)
    | _, _, _ => none

/-- Partial hex decoding: Go encoding/hex DecodeString returns the bytes
decoded before the first error, and callers that discard the error (as
this SDK does) keep that prefix. -/
def hexDecodePartial : List Char → Bytes
  | [] => []
  | [_] => []
  | c1 :: c2 :: rest =>
    match hexDigitVal c1, hexDigitVal c2 with
    | some h, some l => (h * 16 + l) :: hexDecodePartial rest
    | _, _ => []

/-- go-ethereum has0xPrefix followed by slicing: drop a leading 0x / 0X. -/
def strip0x (cs : List Char) : List Char :=
  match cs with
  | '0' :: 'x' :: rest => rest
  | '0' :: 'X' :: rest => rest
  | cs => cs

/-- go-ethereum common.FromHex: strip the 0x prefix, prepend a zero digit
when the digit count is odd, then hex-decode (errors discarded). -/
def fromHex (s : String) : Bytes :=
  let cs := strip0x s.data
  let cs := if cs.length % 2 = 1 then '0' :: cs else cs
  hexDecodePartial cs

/-- go-ethereum common.Address SetBytes: keep the last 20 bytes and
left-pad with zeros to exactly 20 bytes. -/
def bytesToAddress (b : Bytes) : Bytes :=
  let b := b.drop (b.length - 20)
  List.replicate (20 - b.length) 0 ++ b

/-- go-ethereum common.HexToAddress. -/
def hexToAddress (s : String) : Bytes := bytesToAddress (fromHex s)

/-- Modelled from the spec: evm.HexToBytes is not under src/.  It is the
SDK's hex-string-to-bytes helper used on 0x-prefixed nonces; modelled as
strict hex decoding after stripping an optional 0x prefix, returning an
error (none) on malformed input, in which case callers that discard the
error are left with a nil slice. -/
def evmHexToBytes (s : String) : Option Bytes :=
  hexDecodeStrict (strip0x s.data)

/-- Character of a decimal digit. -/
def natDigitChar (d : Nat) : Char := Char.ofNat (48 + d)

/-- Fuel-driven decimal printing accumulator (structural recursion, so
that it reduces inside the kernel; fuel above the argument is enough). -/
def natPrintFuel : Nat → Nat → List Char → List Char
  | 0, _, acc => acc
  | fuel + 1, n, acc =>
    if n < 10 then natDigitChar n :: acc
    else natPrintFuel fuel (n / 10) (natDigitChar (n % 10) :: acc)

/-- Decimal printing accumulator, most significant digit first. -/
def natPrintAux (n : Nat) (acc : List Char) : List Char := natPrintFuel (n + 1) n acc

/-- Decimal digit string of a natural number (Go math/big Int.String for
non-negative values). -/
def natPrint (n : Nat) : List Char := natPrintAux n []

/-- Decimal string of a natural number. -/
def natString (n : Nat) : String := String.mk (natPrint n)

/-- Go math/big Int.String / strconv FormatInt base 10: optional leading
minus sign followed by the decimal digits of the absolute value. -/
def intToString (v : Int) : String :=
  if v < 0 then String.mk ('-' :: natPrint v.natAbs) else String.mk (natPrint v.natAbs)

/-- Decimal parsing fold: consumes digit characters, fails on anything
else. -/
def parseDigitsFrom (acc : Nat) : List Char → Option Nat
  | [] => some acc
  | c :: cs =>
    match hexDigitVal c with
    | some d => if d ≤ 9 then parseDigitsFrom (acc * 10 + d) cs else none
    | none => none

/-- At least one decimal digit, all characters decimal digits. -/
def parseDecimalDigits (cs : List Char) : Option Nat :=
  match cs with
  | [] => none
  | _ => parseDigitsFrom 0 cs

/-- Go math/big Int.SetString with base 10: an optional leading + or -
sign followed by one or more decimal digits; anything else fails (base 10
admits no underscores, whitespace, or radix prefixes).  Note that a
leading minus sign IS accepted: SetString returns a negative integer. -/
def bigIntSetString10 (s : String) : Option Int :=
  match s.data with
  | [] => none
  | c :: rest =>
    if c = '-' then
      match parseDecimalDigits rest with
      | some n => some (-(n : Int))
      | none => none
    else if c = '+' then
      match parseDecimalDigits rest with
      | some n => some ((n : Int))
      | none => none
    else
      match parseDecimalDigits (c :: rest) with
      | some n => some ((n : Int))
      | none => none

/-- Go math/big Int.Bytes(): big-endian bytes of the absolute value. -/
def bigIntBytes (v : Int) : Bytes := natToBEBytes v.natAbs

/-- BytesToHex (0x-prefixed lowercase hex of a byte string). -/
def bytesToHex (b : Bytes) : String :=
  let hexChar : Nat → Char := fun d => if d ≤ 9 then Char.ofNat (48 + d) else Char.ofNat (87 + d)
  String.mk ('0' :: 'x' :: (b.flatMap (fun x => [hexChar (x / 16), hexChar (x % 16)])))

/-! ## EVM scheme data model (go/mechanisms/evm, go/types) -/

/-- evm.AssetInfo: address, EIP-712 name/version, token decimals. -/
structure AssetInfo where
  Address : String
  Name : String
  Version : String
  Decimals : Nat
  deriving DecidableEq, Repr

/-- evm.NetworkConfig (constants.go). -/
structure NetworkConfig where
  ChainID : Nat
  DefaultAsset : AssetInfo
  deriving DecidableEq, Repr

/-- evm.NetworkConfigs from constants.go: Gate Layer Testnet under its
legacy name and its CAIP-2 name, both with USDC as default asset. -/
def NetworkConfigs : List (String × NetworkConfig) :=
  [ ("gatelayer_testnet",
      { ChainID := 10087
        DefaultAsset :=
          { Address := "0x9be8Df37C788B244cFc28E46654aD5Ec28a880AF"
            Name := "USDC", Version := "2", Decimals := 6 } }),
    ("eip155:10087",
      { ChainID := 10087
        DefaultAsset :=
          { Address := "0x9be8Df37C788B244cFc28E46654aD5Ec28a880AF"
            Name := "USDC", Version := "2", Decimals := 6 } }) ]

/-- Scheme-level error taxonomy (client package error constants). -/
inductive SchemeError where
  | UnsupportedNetwork (network : String)
  | InvalidAmount (amount : String)
  | FailedToSignAuthorization (inner : String)
  deriving DecidableEq, Repr

/-- Modelled from the spec: evm.GetEvmChainId is not under src/.  Per the
spec ("parse the network's numeric chain identifier", "unknown network →
UnsupportedNetwork") and the source comment "works for any EIP-155
network (eip155:CHAIN_ID)": configured networks resolve through
NetworkConfigs, otherwise an eip155:N identifier is parsed numerically,
and anything else is an UnsupportedNetwork error. -/
def GetEvmChainId (network : String) : Except SchemeError Nat :=
  match (NetworkConfigs.lookup network) with
  | some cfg => .ok cfg.ChainID
  | none =>
    match network.data with
    | 'e' :: 'i' :: 'p' :: '1' :: '5' :: '5' :: ':' :: rest =>
      match parseDecimalDigits rest with
      | some n => .ok n
      | none => .error (.UnsupportedNetwork network)
    | _ => .error (.UnsupportedNetwork network)

/-- Modelled from the spec: evm.GetAssetInfo is not under src/.  Per the
spec ("resolve the asset address (explicit, else network default) and
decimals") and the source comment "works for any explicit address, or
uses default if configured": an explicit asset address is kept verbatim
(name/version metadata from the network configuration when available),
an empty asset falls back to the configured network default and fails
when no default is configured. -/
def GetAssetInfo (network : String) (asset : String) : Except SchemeError AssetInfo :=
  match (NetworkConfigs.lookup network), asset with
  | some cfg, "" => .ok cfg.DefaultAsset
  | some cfg, a => .ok { cfg.DefaultAsset with Address := a }
  | none, "" => .error (.UnsupportedNetwork network)
  | none, a => .ok { Address := a, Name := "", Version := "", Decimals := 0 }

/-- evm.ExactEIP3009Authorization: all fields are wire strings, exactly
as in the Go struct (Value/ValidAfter/ValidBefore are decimal strings,
Nonce is 0x-prefixed hex). -/
structure ExactEIP3009Authorization where
  From : String
  To : String
  Value : String
  ValidAfter : String
  ValidBefore : String
  Nonce : String
  deriving DecidableEq, Repr

/-- evm.ExactEIP3009Payload: hex signature plus the authorization (its
ToMap wire form carries the same fields, modelled by the record itself). -/
structure ExactEIP3009Payload where
  Signature : String
  Authorization : ExactEIP3009Authorization
  deriving DecidableEq, Repr

/-- types.PaymentPayload as built by this scheme: version plus the
scheme-specific payload map. -/
structure PaymentPayload where
  X402Version : Nat
  Payload : ExactEIP3009Payload
  deriving DecidableEq, Repr

/-- types.PaymentRequirements, restricted to the fields this scheme
reads.  Extra is the free-form metadata map; only its string-valued
"name" and "version" entries are consulted, so it is modelled as an
optional association list of strings. -/
structure PaymentRequirements where
  Network : String
  Asset : String
  Amount : String
  PayTo : String
  Extra : Option (List (String × String))
  deriving DecidableEq, Repr

/-- EIP-712 typed-data domain (evm.TypedDataDomain). -/
structure TypedDataDomain where
  Name : String
  Version : String
  ChainID : Nat
  VerifyingContract : String
  deriving DecidableEq, Repr

/-- EIP-712 typed-data field descriptor (evm.TypedDataField). -/
structure TypedDataField where
  Name : String
  FieldType : String
  deriving DecidableEq, Repr

/-- The typed-data message handed to SignTypedData: from/to as strings,
the three numeric fields as the possibly-failed big.Int parses (their
errors are discarded at the call site), the nonce as raw bytes. -/
structure TypedMessage where
  From : String
  To : String
  Value : Option Int
  ValidAfter : Option Int
  ValidBefore : Option Int
  Nonce : Bytes
  deriving DecidableEq, Repr

/-- The injected signing capability (evm.ClientEvmSigner): an address, a
raw 32-byte-digest signer and an EIP-712 typed-data signer, each of
which may fail.  The capability is opaque to the scheme; its outcomes
are fields of this record. -/
structure ClientEvmSigner where
  address : String
  signDigestResult : Bytes → Except String Bytes
  signTypedDataResult : TypedDataDomain → List (String × List TypedDataField) → String →
    TypedMessage → Except String Bytes

/-- ExactEvmScheme: the signer plus the optional chain client.  The
ethclient is modelled by its one observable operation, CallContract on
the token address (the call data is the constant DOMAIN_SEPARATOR
selector), which may fail. -/
structure ExactEvmScheme where
  signer : ClientEvmSigner
  ethClient : Option (String → Except String Bytes)

/-- The canonical EIP-3009 authorization type string whose keccak256 is
TRANSFER_WITH_AUTHORIZATION_TYPEHASH. -/
def transferWithAuthTypeString : String :=
  "TransferWithAuthorization(address from,address to,uint256 value,uint256 validAfter,uint256 validBefore,bytes32 nonce)"

/-- signWithDomainSeparator (scheme.go): build the EIP-3009 struct hash
and the EIP-712 digest from a raw 32-byte domain separator and hand the
digest to the signing capability.  keccak256 is go-ethereum's hash,
passed in as a function.  The big.Int parses of Value / ValidAfter /
ValidBefore discard their errors in Go; a failed parse leaves a nil
big.Int whose Bytes() call panics, modelled as the none outcome. -/
def signWithDomainSeparator (keccak256 : Bytes → Bytes) (signer : ClientEvmSigner)
    (authorization : ExactEIP3009Authorization) (domainSeparator : Bytes) :
    Option (Except String Bytes) :=
  let typeHash := keccak256 (strBytes transferWithAuthTypeString)
  match bigIntSetString10 authorization.Value, bigIntSetString10 authorization.ValidAfter,
      bigIntSetString10 authorization.ValidBefore with
  | some value, some validAfter, some validBefore =>
    let nonceBytes := (evmHexToBytes authorization.Nonce).getD []
    let fromAddr := hexToAddress authorization.From
    let toAddr := hexToAddress authorization.To
    let encoded := typeHash ++ leftPadBytes fromAddr 32 ++ leftPadBytes toAddr 32 ++
      leftPadBytes (bigIntBytes value) 32 ++ leftPadBytes (bigIntBytes validAfter) 32 ++
      leftPadBytes (bigIntBytes validBefore) 32 ++ nonceBytes
    let structHash := keccak256 encoded
    let digest := keccak256 ([0x19, 0x01] ++ domainSeparator ++ structHash)
    some (signer.signDigestResult digest)
  | _, _, _ => none

/-- queryDomainSeparator (scheme.go): one CallContract for the
DOMAIN_SEPARATOR() view; results shorter than 32 bytes are an error,
longer results are truncated to the first 32 bytes. -/
def queryDomainSeparator (callContract : String → Except String Bytes)
    (tokenAddress : String) : Except String Bytes :=
  match callContract tokenAddress with
  | .error e => .error e
  | .ok result =>
    if result.length < 32 then .error "invalid DOMAIN_SEPARATOR result length"
    else .ok (result.take 32)

/-- The fixed EIP-712 type table used by signAuthorization. -/
def eip712Types : List (String × List TypedDataField) :=
  [ ("EIP712Domain",
      [ { Name := "name", FieldType := "string" },
        { Name := "version", FieldType := "string" },
        { Name := "chainId", FieldType := "uint256" },
        { Name := "verifyingContract", FieldType := "address" } ]),
    ("TransferWithAuthorization",
      [ { Name := "from", FieldType := "address" },
        { Name := "to", FieldType := "address" },
        { Name := "value", FieldType := "uint256" },
        { Name := "validAfter", FieldType := "uint256" },
        { Name := "validBefore", FieldType := "uint256" },
        { Name := "nonce", FieldType := "bytes32" } ]) ]

/-- signAuthorization (scheme.go): query DOMAIN_SEPARATOR from the chain
when an ethclient is configured and sign with it on success; otherwise
fall back to EIP-712 typed-data signing with name/version.  The second
component counts CallContract invocations (chain queries). -/
def signAuthorization (keccak256 : Bytes → Bytes) (c : ExactEvmScheme)
    (authorization : ExactEIP3009Authorization) (chainID : Nat)
    (verifyingContract tokenName tokenVersion : String) :
    Option (Except String Bytes) × Nat :=
  let fallback : Option (Except String Bytes) :=
    let domain : TypedDataDomain :=
      { Name := tokenName, Version := tokenVersion, ChainID := chainID,
        VerifyingContract := verifyingContract }
    let message : TypedMessage :=
      { From := authorization.From, To := authorization.To,
        Value := bigIntSetString10 authorization.Value,
        ValidAfter := bigIntSetString10 authorization.ValidAfter,
        ValidBefore := bigIntSetString10 authorization.ValidBefore,
        Nonce := (evmHexToBytes authorization.Nonce).getD [] }
    some (c.signer.signTypedDataResult domain eip712Types "TransferWithAuthorization" message)
  match c.ethClient with
  | some callContract =>
    match queryDomainSeparator callContract verifyingContract with
    | .ok domainSep => (signWithDomainSeparator keccak256 c.signer authorization domainSep, 1)
    | .error _ => (fallback, 1)
  | none => (fallback, 0)

/-- The pinned (network, asset) pair of scheme.go line 107. -/
def pinnedAssetAddress : String := "0x9be8Df37C788B244cFc28E46654aD5Ec28a880AF"

/-- The hex text of the hardcoded DOMAIN_SEPARATOR constant. -/
def pinnedDomainSeparatorHex : String :=
  "2c2d6b621e73a4a094449d1894717413742130fb20149ec48340ca0354d1a707"

/-- The decoded pinned DOMAIN_SEPARATOR (hex.DecodeString with the error
discarded, exactly as in the source). -/
def pinnedDomainSeparator : Bytes := hexDecodePartial pinnedDomainSeparatorHex.data

/-- The condition guarding the pinned-domain-separator shortcut
(scheme.go line 107): byte-for-byte string equality on both the network
identifier and the resolved asset address. -/
def usesPinnedDomainSeparator (networkStr : String) (assetInfo : AssetInfo) : Bool :=
  networkStr == "gatelayer_testnet" && assetInfo.Address == pinnedAssetAddress

/-- CreatePaymentPayload (scheme.go): parse chain id, resolve the asset,
parse the amount with big.Int SetString base 10, build the authorization
from a fresh nonce and a [now, now+3600) validity window, then sign —
through the pinned DOMAIN_SEPARATOR shortcut for (gatelayer_testnet,
pinned USDC), falling back to signAuthorization whenever the shortcut
does not apply or its signing fails.  CreateNonce's random nonce and the
clock are parameters; the result pairs the outcome with the number of
chain queries performed, and is none on the (unreachable) nil big.Int
panic. -/
def CreatePaymentPayload (keccak256 : Bytes → Bytes) (c : ExactEvmScheme)
    (nonce : String) (now : Nat) (requirements : PaymentRequirements) :
    Option (Except SchemeError PaymentPayload × Nat) :=
  let networkStr := requirements.Network
  match GetEvmChainId networkStr with
  | .error e => some (.error e, 0)
  | .ok chainID =>
  match GetAssetInfo networkStr requirements.Asset with
  | .error e => some (.error e, 0)
  | .ok assetInfo =>
  match bigIntSetString10 requirements.Amount with
  | none => some (.error (.InvalidAmount requirements.Amount), 0)
  | some value =>
  let validAfter := now
  let validBefore := now + 3600
  let tokenName := match requirements.Extra with
    | some extra => (extra.lookup "name").getD assetInfo.Name
    | none => assetInfo.Name
  let tokenVersion := match requirements.Extra with
    | some extra => (extra.lookup "version").getD assetInfo.Version
    | none => assetInfo.Version
  let authorization : ExactEIP3009Authorization :=
    { From := c.signer.address, To := requirements.PayTo,
      Value := intToString value, ValidAfter := natString validAfter,
      ValidBefore := natString validBefore, Nonce := nonce }
  let standardPath : Option (Except SchemeError PaymentPayload × Nat) :=
    match signAuthorization keccak256 c authorization chainID assetInfo.Address
        tokenName tokenVersion with
    | (none, _) => none
    | (some (.error e), k) => some (.error (.FailedToSignAuthorization e), k)
    | (some (.ok signature), k) =>
      some (.ok { X402Version := 2,
                  Payload := { Signature := bytesToHex signature,
                               Authorization := authorization } }, k)
  if usesPinnedDomainSeparator networkStr assetInfo then
    let domainSeparator := pinnedDomainSeparator
    if domainSeparator.length = 32 then
      match signWithDomainSeparator keccak256 c.signer authorization domainSeparator with
      | none => none
      | some (.ok signature) =>
        some (.ok { X402Version := 2,
                    Payload := { Signature := bytesToHex signature,
                                 Authorization := authorization } }, 0)
      | some (.error _) => standardPath
    else standardPath
  else standardPath

/-! ## Basic lemmas about the byte and decimal codecs -/

theorem natToBEBytesAux_fuel (f1 f2 n : Nat) (h1 : n ≤ f1) (h2 : n ≤ f2) :
    natToBEBytesAux f1 n = natToBEBytesAux f2 n := by
  induction f1 generalizing f2 n with
  | zero =>
    have hn : n = 0 := Nat.le_zero.mp h1
    cases f2 with
    | zero => rfl
    | succ f2 => simp [natToBEBytesAux, hn]
  | succ f1 ih =>
    cases f2 with
    | zero =>
      have hn : n = 0 := Nat.le_zero.mp h2
      simp [natToBEBytesAux, hn]
    | succ f2 =>
      by_cases hn : n = 0
      · simp [natToBEBytesAux, hn]
      · have hdiv : n / 256 < n := Nat.div_lt_self (Nat.pos_of_ne_zero hn) (by omega)
        simp only [natToBEBytesAux, if_neg hn]
        rw [ih f2 (n / 256) (by omega) (by omega)]

theorem natToBEBytes_zero : natToBEBytes 0 = [] := rfl

theorem natToBEBytes_pos (n : Nat) (hn : n ≠ 0) :
    natToBEBytes n = natToBEBytes (n / 256) ++ [n % 256] := by
  obtain ⟨m, rfl⟩ : ∃ m, n = m + 1 := ⟨n - 1, by omega⟩
  have hdiv : (m + 1) / 256 < m + 1 := Nat.div_lt_self (by omega) (by omega)
  show natToBEBytesAux (m + 1) (m + 1) = _
  simp only [natToBEBytesAux, if_neg hn]
  rw [natToBEBytesAux_fuel m ((m + 1) / 256) ((m + 1) / 256) (by omega) (by omega)]
  rfl

theorem length_natToBEBytes_le (k n : Nat) (h : n < 256 ^ k) :
    (natToBEBytes n).length ≤ k := by
  induction k generalizing n with
  | zero =>
    have : n = 0 := by simpa using h
    simp [this, natToBEBytes_zero]
  | succ k ih =>
    by_cases hn : n = 0
    · simp [hn, natToBEBytes_zero]
    · rw [natToBEBytes_pos n hn]
      have hd : n / 256 < 256 ^ k := by
        rw [Nat.div_lt_iff_lt_mul (by omega)]
        calc n < 256 ^ (k + 1) := h
        _ = 256 ^ k * 256 := by ring
      simpa using ih (n / 256) hd

theorem beBytesFixed_zero_val (k : Nat) : beBytesFixed k 0 = List.replicate k 0 := by
  induction k with
  | zero => rfl
  | succ k ih => rw [beBytesFixed, Nat.zero_div, ih, List.replicate_succ']

theorem pad_natToBEBytes (k n : Nat) (h : n < 256 ^ k) :
    List.replicate (k - (natToBEBytes n).length) 0 ++ natToBEBytes n = beBytesFixed k n := by
  induction k generalizing n with
  | zero =>
    have : n = 0 := by simpa using h
    simp [this, natToBEBytes_zero, beBytesFixed]
  | succ k ih =>
    by_cases hn : n = 0
    · subst hn
      simp [natToBEBytes_zero, beBytesFixed_zero_val]
    · have hd : n / 256 < 256 ^ k := by
        rw [Nat.div_lt_iff_lt_mul (by omega)]
        calc n < 256 ^ (k + 1) := h
        _ = 256 ^ k * 256 := by ring
      have hlen : (natToBEBytes (n / 256)).length ≤ k := length_natToBEBytes_le k _ hd
      rw [natToBEBytes_pos n hn, beBytesFixed, ← ih (n / 256) hd]
      have : (natToBEBytes (n / 256) ++ [n % 256]).length =
          (natToBEBytes (n / 256)).length + 1 := by simp
      rw [this]
      have harith : k + 1 - ((natToBEBytes (n / 256)).length + 1) =
          k - (natToBEBytes (n / 256)).length := by omega
      rw [harith, List.append_assoc]

theorem leftPadBytes_eq_replicate (slice : Bytes) (l : Nat) (h : slice.length ≤ l) :
    leftPadBytes slice l = List.replicate (l - slice.length) 0 ++ slice := by
  unfold leftPadBytes
  by_cases hc : l ≤ slice.length
  · have : l - slice.length = 0 := by omega
    simp [hc, this]
  · simp [hc]

/-- Core padding fact for the digest claim: on any uint256 value the Go
byte path (minimal big-endian bytes, then LeftPadBytes 32) produces
exactly the spec's fixed 32-byte big-endian encoding. -/
theorem leftPad_natToBEBytes32 (n : Nat) (h : n < 2 ^ 256) :
    leftPadBytes (natToBEBytes n) 32 = beBytes32 n := by
  have h256 : n < 256 ^ 32 := by
    have : (256 : Nat) ^ 32 = 2 ^ 256 := by norm_num
    omega
  rw [leftPadBytes_eq_replicate _ _ (length_natToBEBytes_le 32 n h256)]
  exact pad_natToBEBytes 32 n h256

theorem hexDecodePartial_of_strict (cs : List Char) (bs : Bytes)
    (h : hexDecodeStrict cs = some bs) : hexDecodePartial cs = bs := by
  induction cs using hexDecodeStrict.induct generalizing bs with
  | case1 =>
    simp [hexDecodeStrict] at h
    simp [hexDecodePartial, ← h]
  | case2 c =>
    simp [hexDecodeStrict] at h
  | case3 c1 c2 rest hv lv tail hrest hc2 hc1 ih =>
    rw [hexDecodeStrict, hc1, hc2, hrest] at h
    obtain rfl : (hv * 16 + lv) :: tail = bs := by simpa using h
    simp only [hexDecodePartial, hc1, hc2]
    rw [ih tail hrest]
  | case4 c1 c2 rest hfail ih =>
    rw [hexDecodeStrict] at h
    cases h1 : hexDigitVal c1 with
    | none => rw [h1] at h; simp at h
    | some hv =>
      cases h2 : hexDigitVal c2 with
      | none => rw [h1, h2] at h; simp at h
      | some lv =>
        cases h3 : hexDecodeStrict rest with
        | none => rw [h1, h2, h3] at h; simp at h
        | some tail => exact (hfail hv lv tail h1 h2 h3).elim

theorem hexDecodeStrict_length (cs : List Char) (bs : Bytes)
    (h : hexDecodeStrict cs = some bs) : cs.length = 2 * bs.length := by
  induction cs using hexDecodeStrict.induct generalizing bs with
  | case1 =>
    simp [hexDecodeStrict] at h
    simp [← h]
  | case2 c => simp [hexDecodeStrict] at h
  | case3 c1 c2 rest hv lv tail hrest hc2 hc1 ih =>
    rw [hexDecodeStrict, hc1, hc2, hrest] at h
    obtain rfl : (hv * 16 + lv) :: tail = bs := by simpa using h
    have := ih tail hrest
    simp only [List.length_cons, this]
    omega
  | case4 c1 c2 rest hfail ih =>
    rw [hexDecodeStrict] at h
    cases h1 : hexDigitVal c1 with
    | none => rw [h1] at h; simp at h
    | some hv =>
      cases h2 : hexDigitVal c2 with
      | none => rw [h1, h2] at h; simp at h
      | some lv =>
        cases h3 : hexDecodeStrict rest with
        | none => rw [h1, h2, h3] at h; simp at h
        | some tail => exact (hfail hv lv tail h1 h2 h3).elim

/-- A strictly decodable even-length hex string of 40 digits resolves
through go-ethereum HexToAddress to exactly its 20 decoded bytes. -/
theorem hexToAddress_of_strict (s : String) (bs : Bytes)
    (h : hexDecodeStrict (strip0x s.data) = some bs) (hlen : bs.length = 20) :
    hexToAddress s = bs := by
  have hcs : (strip0x s.data).length = 40 := by
    rw [hexDecodeStrict_length _ _ h, hlen]
  simp only [hexToAddress, fromHex, hcs]
  norm_num
  rw [hexDecodePartial_of_strict _ _ h]
  simp [bytesToAddress, hlen]

/-! ## Decimal print/parse round trip (big.Int String followed by
SetString base 10 recovers the value) -/

theorem natPrintFuel_fuel (f1 f2 n : Nat) (acc : List Char) (h1 : n < f1) (h2 : n < f2) :
    natPrintFuel f1 n acc = natPrintFuel f2 n acc := by
  induction f1 generalizing f2 n acc with
  | zero => omega
  | succ f1 ih =>
    cases f2 with
    | zero => omega
    | succ f2 =>
      by_cases hn : n < 10
      · simp [natPrintFuel, hn]
      · have hdiv : n / 10 < n := Nat.div_lt_self (by omega) (by omega)
        simp only [natPrintFuel, if_neg hn]
        exact ih f2 (n / 10) _ (by omega) (by omega)

theorem natPrintAux_small (n : Nat) (acc : List Char) (h : n < 10) :
    natPrintAux n acc = natDigitChar n :: acc := by
  simp [natPrintAux, natPrintFuel, h]

theorem natPrintAux_large (n : Nat) (acc : List Char) (h : ¬ n < 10) :
    natPrintAux n acc = natPrintAux (n / 10) (natDigitChar (n % 10) :: acc) := by
  have hdiv : n / 10 < n := Nat.div_lt_self (by omega) (by omega)
  show natPrintFuel (n + 1) n acc = _
  simp only [natPrintFuel, if_neg h]
  exact natPrintFuel_fuel n (n / 10 + 1) (n / 10) _ (by omega) (by omega)

theorem natPrintAux_append (n : Nat) (acc : List Char) :
    natPrintAux n acc = natPrint n ++ acc := by
  induction n using Nat.strong_induction_on generalizing acc with
  | _ n ih =>
    by_cases h : n < 10
    · rw [natPrintAux_small n acc h]
      show _ = natPrintAux n [] ++ acc
      rw [natPrintAux_small n [] h]
      rfl
    · have hdiv : n / 10 < n := Nat.div_lt_self (by omega) (by omega)
      rw [natPrintAux_large n acc h]
      show _ = natPrintAux n [] ++ acc
      rw [natPrintAux_large n [] h]
      rw [ih (n / 10) hdiv, ih (n / 10) hdiv (natDigitChar (n % 10) :: [])]
      simp

theorem natPrint_large (n : Nat) (h : ¬ n < 10) :
    natPrint n = natPrint (n / 10) ++ [natDigitChar (n % 10)] := by
  show natPrintAux n [] = _
  rw [natPrintAux_large n [] h, natPrintAux_append]

theorem natPrint_ne_nil (n : Nat) : natPrint n ≠ [] := by
  by_cases h : n < 10
  · rw [show natPrint n = natPrintAux n [] from rfl, natPrintAux_small n [] h]
    simp
  · rw [natPrint_large n h]
    simp

theorem natPrint_mem_digit (n : Nat) (c : Char) (hc : c ∈ natPrint n) :
    48 ≤ c.toNat ∧ c.toNat ≤ 57 := by
  induction n using Nat.strong_induction_on generalizing c with
  | _ n ih =>
    by_cases h : n < 10
    · rw [show natPrint n = natPrintAux n [] from rfl, natPrintAux_small n [] h] at hc
      simp at hc
      subst hc
      interval_cases n <;> simp [natDigitChar]
    · have hdiv : n / 10 < n := Nat.div_lt_self (by omega) (by omega)
      rw [natPrint_large n h] at hc
      rcases List.mem_append.mp hc with h1 | h2
      · exact ih (n / 10) hdiv c h1
      · simp at h2
        subst h2
        have hm : n % 10 < 10 := Nat.mod_lt n (by omega)
        interval_cases hq : n % 10 <;> simp [natDigitChar]

theorem hexDigitVal_digitChar (d : Nat) (h : d < 10) :
    hexDigitVal (natDigitChar d) = some d := by
  interval_cases d <;> decide

/-- Number with one more decimal digit than n (10 ^ number of digits). -/
def pow10digits (n : Nat) : Nat :=
  if _ : n < 10 then 10 else pow10digits (n / 10) * 10
termination_by n
decreasing_by exact Nat.div_lt_self (by omega) (by omega)

theorem pow10digits_small (n : Nat) (h : n < 10) : pow10digits n = 10 := by
  unfold pow10digits
  simp [h]

theorem pow10digits_large (n : Nat) (h : ¬ n < 10) :
    pow10digits n = pow10digits (n / 10) * 10 := by
  conv_lhs => unfold pow10digits
  simp [h]

theorem parseDigitsFrom_natPrint (n : Nat) :
    ∀ (acc : Nat) (cs : List Char),
      parseDigitsFrom acc (natPrint n ++ cs) =
        parseDigitsFrom (acc * pow10digits n + n) cs := by
  induction n using Nat.strong_induction_on with
  | _ n ih =>
    intro acc cs
    by_cases h : n < 10
    · rw [show natPrint n = natPrintAux n [] from rfl, natPrintAux_small n [] h,
        pow10digits_small n h]
      simp only [List.cons_append, List.nil_append, parseDigitsFrom,
        hexDigitVal_digitChar n h]
      simp [Nat.le_of_lt_succ, show n ≤ 9 by omega]
    · have hdiv : n / 10 < n := Nat.div_lt_self (by omega) (by omega)
      rw [natPrint_large n h, pow10digits_large n h, List.append_assoc]
      simp only [List.singleton_append]
      rw [ih (n / 10) hdiv acc (natDigitChar (n % 10) :: cs)]
      have hm : n % 10 < 10 := Nat.mod_lt n (by omega)
      simp only [List.cons_append, List.nil_append, parseDigitsFrom,
        hexDigitVal_digitChar (n % 10) hm]
      rw [if_pos (by omega)]
      have : (acc * pow10digits (n / 10) + n / 10) * 10 + n % 10 =
          acc * (pow10digits (n / 10) * 10) + n := by
        have := Nat.div_add_mod n 10
        ring_nf
        omega
      rw [this]

theorem parseDecimalDigits_natPrint (n : Nat) :
    parseDecimalDigits (natPrint n) = some n := by
  have hne := natPrint_ne_nil n
  have hmain : parseDigitsFrom 0 (natPrint n) = some n := by
    rw [show natPrint n = natPrint n ++ [] by simp, parseDigitsFrom_natPrint n 0 []]
    simp [parseDigitsFrom]
  cases hpr : natPrint n with
  | nil => exact absurd hpr hne
  | cons c cs =>
    have hred : parseDecimalDigits (c :: cs) = parseDigitsFrom 0 (c :: cs) := rfl
    rw [hred, ← hpr, hmain]

theorem bigIntSetString10_cons (c : Char) (rest : List Char) :
    bigIntSetString10 (String.mk (c :: rest)) =
      (if c = '-' then
        match parseDecimalDigits rest with
        | some n => some (-(n : Int))
        | none => none
      else if c = '+' then
        match parseDecimalDigits rest with
        | some n => some ((n : Int))
        | none => none
      else
        match parseDecimalDigits (c :: rest) with
        | some n => some ((n : Int))
        | none => none) := rfl

/-- Round trip: Go big.Int String followed by SetString base 10 recovers
the integer (both non-negative and negative values). -/
theorem bigIntSetString10_intToString (v : Int) :
    bigIntSetString10 (intToString v) = some v := by
  by_cases hv : v < 0
  · rw [intToString, if_pos hv, bigIntSetString10_cons, if_pos rfl,
      parseDecimalDigits_natPrint]
    show some (-(v.natAbs : Int)) = some v
    simp only [Option.some.injEq]
    omega
  · rw [intToString, if_neg hv]
    obtain ⟨c, cs, hc⟩ : ∃ c cs, natPrint v.natAbs = c :: cs := by
      cases h : natPrint v.natAbs with
      | nil => exact absurd h (natPrint_ne_nil _)
      | cons c cs => exact ⟨c, cs, rfl⟩
    have hdig := natPrint_mem_digit v.natAbs c (by rw [hc]; simp)
    have hcm : ¬ c = '-' := by
      intro hcontra
      rw [hcontra] at hdig
      revert hdig
      decide
    have hcp : ¬ c = '+' := by
      intro hcontra
      rw [hcontra] at hdig
      revert hdig
      decide
    rw [hc, bigIntSetString10_cons, if_neg hcm, if_neg hcp, ← hc,
      parseDecimalDigits_natPrint]
    show some ((v.natAbs : Int)) = some v
    simp only [Option.some.injEq]
    omega

/-! ## The spec's digest formula (written from the spec's words, to be
compared with the embedding of signWithDomainSeparator) -/

/-- The spec's leftPad32: zero-extend on the left to 32 bytes. -/
def leftPad32 (b : Bytes) : Bytes := List.replicate (32 - b.length) 0 ++ b

/-- structHash = hash(typeHash ‖ leftPad32(from) ‖ leftPad32(to) ‖
leftPad32(value) ‖ leftPad32(validAfter) ‖ leftPad32(validBefore) ‖
nonce), where typeHash is the fixed hash of the canonical authorization
type string, numbers encoded as 32-byte big-endian words. -/
def specStructHash (keccak256 : Bytes → Bytes) (fromAddr toAddr : Bytes)
    (value validAfter validBefore : Nat) (nonce : Bytes) : Bytes :=
  keccak256 (keccak256 (strBytes transferWithAuthTypeString) ++
    leftPad32 fromAddr ++ leftPad32 toAddr ++ beBytes32 value ++
    beBytes32 validAfter ++ beBytes32 validBefore ++ nonce)

/-- digest = hash(0x19 ‖ 0x01 ‖ domainSeparator ‖ structHash). -/
def specSigningDigest (keccak256 : Bytes → Bytes) (domainSeparator : Bytes)
    (fromAddr toAddr : Bytes) (value validAfter validBefore : Nat)
    (nonce : Bytes) : Bytes :=
  keccak256 ([0x19, 0x01] ++ domainSeparator ++
    specStructHash keccak256 fromAddr toAddr value validAfter validBefore nonce)

theorem leftPadBytes_32_eq_leftPad32 (b : Bytes) (h : b.length ≤ 32) :
    leftPadBytes b 32 = leftPad32 b :=
  leftPadBytes_eq_replicate b 32 h

/-- C1: for every authorization and 32-byte domain separator, the digest
signWithDomainSeparator hands to the signing capability is
keccak256(0x19 ‖ 0x01 ‖ domainSeparator ‖ structHash) with structHash =
keccak256(typeHash ‖ leftPad32(from) ‖ leftPad32(to) ‖ leftPad32(value) ‖
leftPad32(validAfter) ‖ leftPad32(validBefore) ‖ nonce) where typeHash is
the keccak256 of the canonical TransferWithAuthorization type string;
and recomputing on the same inputs is byte-identical (second conjunct).
The hypotheses say the authorization is well-formed: from/to are hex
addresses of 20 bytes, the three numerals parse as uint256 values, and
the nonce is valid hex. -/
theorem c1_signing_digest (keccak256 : Bytes → Bytes) (signer : ClientEvmSigner)
    (auth : ExactEIP3009Authorization) (domainSeparator : Bytes)
    (fromAddr toAddr nonceBytes : Bytes) (value validAfter validBefore : Nat)
    (hFrom : hexDecodeStrict (strip0x auth.From.data) = some fromAddr)
    (hFromLen : fromAddr.length = 20)
    (hTo : hexDecodeStrict (strip0x auth.To.data) = some toAddr)
    (hToLen : toAddr.length = 20)
    (hValue : bigIntSetString10 auth.Value = some ((value : Nat) : Int))
    (hValueLt : value < 2 ^ 256)
    (hVA : bigIntSetString10 auth.ValidAfter = some ((validAfter : Nat) : Int))
    (hVALt : validAfter < 2 ^ 256)
    (hVB : bigIntSetString10 auth.ValidBefore = some ((validBefore : Nat) : Int))
    (hVBLt : validBefore < 2 ^ 256)
    (hNonce : evmHexToBytes auth.Nonce = some nonceBytes) :
    signWithDomainSeparator keccak256 signer auth domainSeparator =
      some (signer.signDigestResult (specSigningDigest keccak256 domainSeparator
        fromAddr toAddr value validAfter validBefore nonceBytes)) ∧
    signWithDomainSeparator keccak256 signer auth domainSeparator =
      signWithDomainSeparator keccak256 signer auth domainSeparator := by
  refine ⟨?_, rfl⟩
  rw [signWithDomainSeparator, hValue, hVA, hVB]
  simp only [hNonce, Option.getD_some,
    hexToAddress_of_strict _ _ hFrom hFromLen, hexToAddress_of_strict _ _ hTo hToLen,
    bigIntBytes, Int.natAbs_ofNat]
  rw [leftPad_natToBEBytes32 value hValueLt, leftPad_natToBEBytes32 validAfter hVALt,
    leftPad_natToBEBytes32 validBefore hVBLt,
    leftPadBytes_32_eq_leftPad32 fromAddr (by omega),
    leftPadBytes_32_eq_leftPad32 toAddr (by omega)]
  rfl

/-- Witness for c1_signing_digest at a fully concrete authorization,
keccak256 stand-in and succeeding signer: the digest handed to the
capability is exactly the spec formula's value. -/
theorem c1_signing_digest_witness :
    signWithDomainSeparator (fun bs => List.replicate 32 (bs.length % 256))
      { address := "0x1111111111111111111111111111111111111111",
        signDigestResult := fun d => .ok d,
        signTypedDataResult := fun _ _ _ _ => .ok [] }
      { From := "0x1111111111111111111111111111111111111111",
        To := "0x2222222222222222222222222222222222222222",
        Value := "1000", ValidAfter := "0", ValidBefore := "3600",
        Nonce := "0x3333333333333333333333333333333333333333333333333333333333333333" }
      (List.replicate 32 7) =
      some (Except.ok (specSigningDigest (fun bs => List.replicate 32 (bs.length % 256))
        (List.replicate 32 7) (List.replicate 20 0x11) (List.replicate 20 0x22)
        1000 0 3600 (List.replicate 32 0x33))) :=
  (c1_signing_digest (fun bs => List.replicate 32 (bs.length % 256))
    { address := "0x1111111111111111111111111111111111111111",
      signDigestResult := fun d => .ok d,
      signTypedDataResult := fun _ _ _ _ => .ok [] }
    { From := "0x1111111111111111111111111111111111111111",
      To := "0x2222222222222222222222222222222222222222",
      Value := "1000", ValidAfter := "0", ValidBefore := "3600",
      Nonce := "0x3333333333333333333333333333333333333333333333333333333333333333" }
    (List.replicate 32 7)
    (List.replicate 20 0x11) (List.replicate 20 0x22) (List.replicate 32 0x33)
    1000 0 3600
    (by decide) (by decide) (by decide) (by decide)
    (by decide) (by decide) (by decide) (by decide)
    (by decide) (by decide) (by decide)).1

/-! ## SHA-256, HMAC-SHA256 and base64 (Go crypto/sha256, crypto/hmac,
encoding/base64), implemented over Nat with explicit mod 2^32 -/

/-- 32-bit word arithmetic capping constant. -/
def w32 : Nat := 4294967296

/-- Rotate a 32-bit word right by n bit positions. -/
def rotr32 (x n : Nat) : Nat := ((x >>> n) + (x <<< (32 - n))) % w32

/-- The 64 SHA-256 round constants of FIPS 180-4 (decimal). -/
def sha256K : List Nat :=
  [1116352408, 1899447441, 3049323471, 3921009573, 961987163, 1508970993,
   2453635748, 2870763221, 3624381080, 310598401, 607225278, 1426881987,
   1925078388, 2162078206, 2614888103, 3248222580, 3835390401, 4022224774,
   264347078, 604807628, 770255983, 1249150122, 1555081692, 1996064986,
   2554220882, 2821834349, 2952996808, 3210313671, 3336571891, 3584528711,
   113926993, 338241895, 666307205, 773529912, 1294757372, 1396182291,
   1695183700, 1986661051, 2177026350, 2456956037, 2730485921, 2820302411,
   3259730800, 3345764771, 3516065817, 3600352804, 4094571909, 275423344,
   430227734, 506948616, 659060556, 883997877, 958139571, 1322822218,
   1537002063, 1747873779, 1955562222, 2024104815, 2227730452, 2361852424,
   2428436474, 2756734187, 3204031479, 3329325298]

/-- The initial SHA-256 hash state of FIPS 180-4 (decimal). -/
def sha256Init : List Nat :=
  [1779033703, 3144134277, 1013904242, 2773480762,
   1359893119, 2600822924, 528734635, 1541459225]

/-- Big-endian 32-bit words from bytes (groups of four). -/
def toWordsBE : Bytes → List Nat
  | b0 :: b1 :: b2 :: b3 :: rest =>
    (((b0 * 256 + b1) * 256 + b2) * 256 + b3) :: toWordsBE rest
  | _ => []

/-- SHA-256 message-schedule small sigma 0. -/
def ssig0 (x : Nat) : Nat := (rotr32 x 7) ^^^ (rotr32 x 18) ^^^ (x >>> 3)

/-- SHA-256 message-schedule small sigma 1. -/
def ssig1 (x : Nat) : Nat := (rotr32 x 17) ^^^ (rotr32 x 19) ^^^ (x >>> 10)

/-- SHA-256 compression big sigma 0. -/
def bsig0 (x : Nat) : Nat := (rotr32 x 2) ^^^ (rotr32 x 13) ^^^ (rotr32 x 22)

/-- SHA-256 compression big sigma 1. -/
def bsig1 (x : Nat) : Nat := (rotr32 x 6) ^^^ (rotr32 x 11) ^^^ (rotr32 x 25)

/-- Extend the 16 block words to the 64 schedule words. -/
def sha256Extend (w : List Nat) : Nat → List Nat
  | 0 => w
  | steps + 1 =>
    let i := w.length
    let next := (ssig1 (w.getD (i - 2) 0) + w.getD (i - 7) 0 +
      ssig0 (w.getD (i - 15) 0) + w.getD (i - 16) 0) % w32
    sha256Extend (w ++ [next]) steps

/-- One SHA-256 round: state is the eight working words a..h. -/
def sha256Round (st : List Nat) (kw : Nat × Nat) : List Nat :=
  match st with
  | [a, b, c, d, e, f, g, h] =>
    let ch := (e &&& f) ^^^ ((w32 - 1 - e) &&& g)
    let maj := (a &&& b) ^^^ (a &&& c) ^^^ (b &&& c)
    let t1 := (h + bsig1 e + ch + kw.1 + kw.2) % w32
    let t2 := (bsig0 a + maj) % w32
    [(t1 + t2) % w32, a, b, c, (d + t1) % w32, e, f, g]
  | st => st

/-- Compress one 64-byte block into the running state. -/
def sha256Compress (hs : List Nat) (block : Bytes) : List Nat :=
  let w := sha256Extend (toWordsBE block) 48
  let st := (sha256K.zip w).foldl sha256Round hs
  (hs.zip st).map (fun p => (p.1 + p.2) % w32)

/-- Fold the compression over all 64-byte blocks (fuel-driven structural
recursion; fuel above the byte length is enough). -/
def sha256Blocks : Nat → List Nat → Bytes → List Nat
  | 0, hs, _ => hs
  | fuel + 1, hs, b =>
    match b with
    | [] => hs
    | b => sha256Blocks fuel (sha256Compress hs (b.take 64)) (b.drop 64)

/-- SHA-256 padding: 0x80, zeros to 56 mod 64, 8-byte big-endian bit
length. -/
def sha256Pad (msg : Bytes) : Bytes :=
  let l := msg.length
  let r := (l + 1) % 64
  let z := (56 + 64 - r) % 64
  msg ++ [0x80] ++ List.replicate z 0 ++ beBytesFixed 8 (l * 8)

/-- SHA-256 of a byte string. -/
def sha256 (msg : Bytes) : Bytes :=
  let padded := sha256Pad msg
  let hs := sha256Blocks (padded.length + 1) sha256Init padded
  hs.flatMap (beBytesFixed 4)

/-- Go crypto/hmac with SHA-256: block size 64, ipad 0x36, opad 0x5c. -/
def hmacSha256 (key msg : Bytes) : Bytes :=
  let k := if 64 < key.length then sha256 key else key
  let k := k ++ List.replicate (64 - k.length) 0
  let ipad := k.map (fun b => b ^^^ 0x36)
  let opad := k.map (fun b => b ^^^ 0x5c)
  sha256 (opad ++ sha256 (ipad ++ msg))

/-- The standard base64 alphabet. -/
def base64Alphabet : List Char :=
  "ABCDEFGHIJKLMNOPQRSTUVWXYZabcdefghijklmnopqrstuvwxyz0123456789+/".data

/-- Base64 digit character. -/
def b64Char (n : Nat) : Char := base64Alphabet.getD n 'A'

/-- Go encoding/base64 StdEncoding EncodeToString (with = padding). -/
def base64Encode : Bytes → List Char
  | [] => []
  | [b0] => [b64Char (b0 / 4), b64Char (b0 % 4 * 16), '=', '=']
  | [b0, b1] => [b64Char (b0 / 4), b64Char (b0 % 4 * 16 + b1 / 16),
      b64Char (b1 % 16 * 4), '=']
  | b0 :: b1 :: b2 :: rest =>
    b64Char (b0 / 4) :: b64Char (b0 % 4 * 16 + b1 / 16) ::
      b64Char (b1 % 16 * 4 + b2 / 64) :: b64Char (b2 % 64) :: base64Encode rest

/-! ## JSON values and serialization (Go encoding/json at the level this
client uses it: maps of string keys to generic values) -/

/-- Generic JSON values, the shape of Go map[string]interface h.  Object
fields are listed in the order encoding/json Marshal emits them
(alphabetical by key for Go maps). -/
inductive Json where
  | null
  | bool (b : Bool)
  | num (n : Int)
  | str (s : String)
  | arr (elems : List Json)
  | obj (fields : List (String × Json))

/-- Minimal JSON string quoting: backslash and quote escapes (Go
additionally escapes HTML and control characters, which none of the
strings in this model contain). -/
def jsonQuote (s : String) : String :=
  let esc : Char → List Char := fun c =>
    if c = '\\' then ['\\', '\\'] else if c = '"' then ['\\', '"'] else [c]
  String.mk ('"' :: (s.data.flatMap esc) ++ ['"'])

mutual

/-- encoding/json Marshal of a generic value. -/
def serializeJson : Json → String
  | .null => "null"
  | .bool true => "true"
  | .bool false => "false"
  | .num n => intToString n
  | .str s => jsonQuote s
  | .arr xs => "[" ++ serializeJsonList xs ++ "]"
  | .obj fs => "\x7b" ++ serializeJsonFields fs ++ "\x7d"

/-- Comma-joined serialization of array elements. -/
def serializeJsonList : List Json → String
  | [] => ""
  | [x] => serializeJson x
  | x :: xs => serializeJson x ++ "," ++ serializeJsonList xs

/-- Comma-joined serialization of object fields. -/
def serializeJsonFields : List (String × Json) → String
  | [] => ""
  | [(k, v)] => jsonQuote k ++ ":" ++ serializeJson v
  | (k, v) :: fs => jsonQuote k ++ ":" ++ serializeJson v ++ "," ++ serializeJsonFields fs

end

/-! ## Facilitator wire client (go/http/facilitator_client.go) -/

/-- The process environment, as the getenv function. -/
abbrev Env := String → String

/-- The facilitator constants of facilitator_client.go. -/
def DefaultFacilitatorURL : String := "https://openapi-test.gateweb3.cc/api/v1/x402"

/-- Gate Web3 signing path (constant gateWeb3SigningPath). -/
def gateWeb3SigningPath : String := "/api/v1/dex"

/-- Logical target URI for supported. -/
def gateWeb3TargetURISupported : String := "/v1/x402/supported"

/-- Logical target URI for verify. -/
def gateWeb3TargetURIVerify : String := "/v1/x402/verify"

/-- Logical target URI for settle. -/
def gateWeb3TargetURISettle : String := "/v1/x402/settle"

/-- Environment variable names and defaults. -/
def envGateWeb3APIKey : String := "GATE_WEB3_API_KEY"

/-- Secret environment variable name. -/
def envGateWeb3APISecret : String := "GATE_WEB3_API_SECRET"

/-- Passphrase environment variable name. -/
def envGateWeb3Passphrase : String := "GATE_WEB3_PASSPHRASE"

/-- Real-IP environment variable name. -/
def envGateWeb3RealIP : String := "GATE_WEB3_REAL_IP"

/-- Default X-Forwarded-For value. -/
def defaultGateWeb3ForwardedFor : String := "127.0.0.1"

/-- Default passphrase (empty). -/
def defaultGateWeb3Passphrase : String := ""

/-- Go unicode.IsSpace on the characters that can occur here (the ASCII
whitespace set plus the Latin-1 NEL and NBSP characters that Go also
trims; the non-Latin-1 Unicode space classes are not modelled). -/
def goIsSpace (c : Char) : Bool :=
  c == ' ' || c == '\t' || c == '\n' || c.toNat == 11 || c.toNat == 12 ||
    c == '\r' || c.toNat == 0x85 || c.toNat == 0xA0

/-- Go strings.TrimSpace. -/
def trimSpace (s : String) : String :=
  String.mk (((s.data.dropWhile goIsSpace).reverse.dropWhile goIsSpace).reverse)

/-- Go strings.TrimPrefix with the single slash used for x-target-uri. -/
def trimLeadingSlash (s : String) : String :=
  match s.data with
  | '/' :: rest => String.mk rest
  | _ => s

/-- gateWeb3Credentials. -/
structure GateWeb3Credentials where
  APIKey : String
  APISecret : String
  Passphrase : String
  RealIP : String
  deriving DecidableEq, Repr

/-- loadGateWeb3Credentials: AK/SK from the environment, trimmed; both
must be non-empty or the default signing is disabled.  Passphrase and
RealIP fall back to their defaults when unset. -/
def loadGateWeb3Credentials (env : Env) : Option GateWeb3Credentials :=
  let ak := trimSpace (env envGateWeb3APIKey)
  let sk := trimSpace (env envGateWeb3APISecret)
  if ak = "" ∨ sk = "" then none
  else
    let pass := env envGateWeb3Passphrase
    let pass := if pass = "" then defaultGateWeb3Passphrase else pass
    let realIP := env envGateWeb3RealIP
    let realIP := if realIP = "" then defaultGateWeb3ForwardedFor else realIP
    some { APIKey := ak, APISecret := sk, Passphrase := pass, RealIP := realIP }

/-- An HTTP request at the level this client builds it. -/
structure HttpRequest where
  method : String
  url : String
  body : Bytes
  headers : List (String × String)
  deriving DecidableEq, Repr

/-- net/http Header.Set: replace any previous value of the key.  The
keys used here are fixed literals, so MIME canonicalization of the key
is not modelled. -/
def setHeader (req : HttpRequest) (key value : String) : HttpRequest :=
  { req with headers := req.headers.filter (fun kv => kv.1 != key) ++ [(key, value)] }

/-- Look up a header value. -/
def getHeader (req : HttpRequest) (key : String) : Option String :=
  req.headers.lookup key

/-- Apply a batch of custom auth headers in order. -/
def setHeaders (req : HttpRequest) : List (String × String) → HttpRequest
  | [] => req
  | (k, v) :: rest => setHeaders (setHeader req k v) rest

/-- PREHASH = timestamp ‖ gateWeb3SigningPath ‖ rawBody, over the exact
body bytes. -/
def gateWeb3Prehash (timestamp : Int) (signingPath : String) (body : Bytes) : Bytes :=
  strBytes (intToString timestamp) ++ strBytes signingPath ++ body

/-- Signature = Base64(HMAC_SHA256(SK, PREHASH)). -/
def gateWeb3Signature (secret : String) (timestamp : Int) (signingPath : String)
    (body : Bytes) : String :=
  String.mk (base64Encode (hmacSha256 (strBytes secret)
    (gateWeb3Prehash timestamp signingPath body)))

/-- applyGateWeb3Signature: without credentials the request is returned
untouched; with credentials the HMAC signature and the Gate Web3 headers
are attached.  The wall-clock timestamp (UnixMilli) and the uuid request
id are parameters. -/
def applyGateWeb3Signature (env : Env) (timestamp : Int) (requestId : String)
    (req : HttpRequest) (body : Bytes) (targetURI : String) : HttpRequest :=
  match loadGateWeb3Credentials env with
  | none => req
  | some creds =>
    let signature := gateWeb3Signature creds.APISecret timestamp gateWeb3SigningPath body
    let req := setHeader req "X-Api-Key" creds.APIKey
    let req := setHeader req "X-Timestamp" (intToString timestamp)
    let req := setHeader req "X-Signature" signature
    let req := if creds.Passphrase ≠ "" then setHeader req "X-Passphrase" creds.Passphrase else req
    let req := if creds.RealIP ≠ "" then setHeader req "X-Forwarded-For" creds.RealIP else req
    let req := setHeader req "X-Request-Id" requestId
    setHeader req "x-target-uri" (trimLeadingSlash targetURI)

/-- The standard facilitator response envelope (code, msg, data). -/
structure FacAPIResponse (T : Type) where
  Code : Int
  Msg : String
  Data : T
  deriving DecidableEq, Repr

/-- Modelled from the spec: x402.VerifyResponse is not under src/; per
the spec it carries a structured failure reason distinct from transport
failure plus the payer, which are the fields this client reads. -/
structure VerifyResponseData where
  IsValid : Bool
  InvalidReason : String
  Payer : String
  deriving DecidableEq, Repr

/-- Modelled from the spec: x402.SettleResponse is not under src/; per
the spec it carries a structured failure reason, the payer and network,
and a settlement transaction reference, which this client reads. -/
structure SettleResponseData where
  Success : Bool
  ErrorReason : String
  Payer : String
  Network : String
  Transaction : String
  deriving DecidableEq, Repr

/-- Modelled from the spec: x402.SupportedResponse is not under src/
(SupportedKinds); its shape is opaque to this client, kept generic. -/
structure SupportedResponseData where
  raw : Json

/-- Modelled from the spec: the x402 error constructors NewVerifyError /
NewSettleError are not under src/.  Per the spec, callers receive a
typed error value carrying payer, network and reason, distinguishable
from plain formatted errors; every fmt.Errorf in the client is a
GenericError. -/
inductive X402Error where
  | VerifyError (reason payer network : String) (wrapped : String)
  | SettleError (reason payer network transaction : String) (wrapped : String)
  | GenericError (msg : String)
  deriving DecidableEq, Repr

/-- Typed business failures versus plain formatted (generic/transport)
errors. -/
def isTypedBusinessError : X402Error → Bool
  | .VerifyError _ _ _ _ => true
  | .SettleError _ _ _ _ _ => true
  | .GenericError _ => false

/-- Response classification of verifyHTTP (facilitator_client.go lines
359-372): non-200 or nonzero envelope code is a failure; a non-empty
invalid_reason produces the typed verify error, otherwise a plain
formatted error. -/
def classifyVerifyResponse (statusCode : Nat)
    (resp : FacAPIResponse VerifyResponseData) : Except X402Error VerifyResponseData :=
  if statusCode ≠ 200 ∨ resp.Code ≠ 0 then
    if resp.Data.InvalidReason ≠ "" then
      .error (.VerifyError resp.Data.InvalidReason resp.Data.Payer ""
        ("facilitator returned http=" ++ natString statusCode ++ " code=" ++
          intToString resp.Code ++ " msg=" ++ resp.Msg))
    else
      .error (.GenericError ("facilitator verify failed (http=" ++ natString statusCode ++
        ", code=" ++ intToString resp.Code ++ ", msg=" ++ resp.Msg ++ ")"))
  else .ok resp.Data

/-- Response classification of settleHTTP (facilitator_client.go lines
440-452). -/
def classifySettleResponse (statusCode : Nat)
    (resp : FacAPIResponse SettleResponseData) : Except X402Error SettleResponseData :=
  if statusCode ≠ 200 ∨ resp.Code ≠ 0 then
    if resp.Data.ErrorReason ≠ "" then
      .error (.SettleError resp.Data.ErrorReason resp.Data.Payer resp.Data.Network
        resp.Data.Transaction
        ("facilitator returned http=" ++ natString statusCode ++ " code=" ++
          intToString resp.Code ++ " msg=" ++ resp.Msg))
    else
      .error (.GenericError ("facilitator settle failed (http=" ++ natString statusCode ++
        ", code=" ++ intToString resp.Code ++ ", msg=" ++ resp.Msg ++ ")"))
  else .ok resp.Data

/-- Response classification of GetSupported (facilitator_client.go lines
281-284): any non-200 or nonzero code is a plain formatted error. -/
def classifySupportedResponse (statusCode : Nat)
    (resp : FacAPIResponse SupportedResponseData) : Except X402Error SupportedResponseData :=
  if statusCode ≠ 200 ∨ resp.Code ≠ 0 then
    .error (.GenericError ("facilitator supported failed (http=" ++ natString statusCode ++
      ", code=" ++ intToString resp.Code ++ ", msg=" ++ resp.Msg ++ ")"))
  else .ok resp.Data

/-- Custom auth headers per endpoint (AuthHeaders). -/
structure AuthHeaders where
  Verify : List (String × String)
  Settle : List (String × String)
  Supported : List (String × String)
  deriving DecidableEq, Repr

/-- HTTPFacilitatorClient: one URL, an optional auth provider whose
GetAuthHeaders outcome is modelled as a field. -/
structure HTTPFacilitatorClient where
  url : String
  authProvider : Option (Except String AuthHeaders)

/-- Build the authenticated POST request for one operation: serialize
the body JSON, create the POST to the single configured URL, set
Content-Type, and apply the default Gate Web3 signing over the same
bytes that become the HTTP body. -/
def buildFacilitatorRequest (c : HTTPFacilitatorClient) (env : Env) (timestamp : Int)
    (requestId : String) (bodyJson : Json) (targetURI : String) : HttpRequest :=
  let body := strBytes (serializeJson bodyJson)
  let req : HttpRequest := { method := "POST", url := c.url, body := body, headers := [] }
  let req := setHeader req "Content-Type" "application/json"
  applyGateWeb3Signature env timestamp requestId req body targetURI

/-- The verify request body: action/params envelope, params carrying the
version plus the payload and requirements as generic structured data
(fields in Go's sorted-key marshal order). -/
def verifyRequestBody (version : Nat) (payloadJson requirementsJson : Json) : Json :=
  Json.obj [("action", Json.str "x402.verify"),
            ("params", Json.obj [("paymentPayload", payloadJson),
                                 ("paymentRequirements", requirementsJson),
                                 ("x402Version", Json.num version)])]

/-- The settle request body. -/
def settleRequestBody (version : Nat) (payloadJson requirementsJson : Json) : Json :=
  Json.obj [("action", Json.str "x402.settle"),
            ("params", Json.obj [("paymentPayload", payloadJson),
                                 ("paymentRequirements", requirementsJson),
                                 ("x402Version", Json.num version)])]

/-- The supported request body. -/
def supportedRequestBody : Json :=
  Json.obj [("action", Json.str "x402.supported"), ("params", Json.obj [])]

/-- GetAuthHeaders consultation and per-endpoint header application: a
failing provider aborts before any request is sent; a configured
provider's headers override the defaults; no provider leaves the request
as built. -/
def applyAuthHeaders (authProvider : Option (Except String AuthHeaders))
    (pick : AuthHeaders → List (String × String)) (req : HttpRequest) :
    Except String HttpRequest :=
  match authProvider with
  | some (.error e) => .error e
  | some (.ok hs) => .ok (setHeaders req (pick hs))
  | none => .ok req

/-- verifyHTTP: build the request, apply custom auth headers, perform
the single POST through the transport, classify the response.  The
second component is the trace of requests actually sent.  The payload
and requirements arrive as parsed generic JSON (the byte-level
json.Unmarshal of the inputs is outside this model); the transport
returns the HTTP status and decoded envelope or a transport error. -/
def verifyHTTP (c : HTTPFacilitatorClient) (env : Env) (timestamp : Int)
    (requestId : String)
    (send : HttpRequest → Except String (Nat × FacAPIResponse VerifyResponseData))
    (version : Nat) (payloadJson requirementsJson : Json) :
    Except X402Error VerifyResponseData × List HttpRequest :=
  match applyAuthHeaders c.authProvider AuthHeaders.Verify
    (buildFacilitatorRequest c env timestamp requestId
      (verifyRequestBody version payloadJson requirementsJson) gateWeb3TargetURIVerify) with
  | .error e => (.error (.GenericError ("failed to get auth headers: " ++ e)), [])
  | .ok req =>
    ((match send req with
      | .error e => .error (.GenericError ("verify request failed: " ++ e))
      | .ok (status, resp) => classifyVerifyResponse status resp), [req])

/-- settleHTTP, structured like verifyHTTP. -/
def settleHTTP (c : HTTPFacilitatorClient) (env : Env) (timestamp : Int)
    (requestId : String)
    (send : HttpRequest → Except String (Nat × FacAPIResponse SettleResponseData))
    (version : Nat) (payloadJson requirementsJson : Json) :
    Except X402Error SettleResponseData × List HttpRequest :=
  match applyAuthHeaders c.authProvider AuthHeaders.Settle
    (buildFacilitatorRequest c env timestamp requestId
      (settleRequestBody version payloadJson requirementsJson) gateWeb3TargetURISettle) with
  | .error e => (.error (.GenericError ("failed to get auth headers: " ++ e)), [])
  | .ok req =>
    ((match send req with
      | .error e => .error (.GenericError ("settle request failed: " ++ e))
      | .ok (status, resp) => classifySettleResponse status resp), [req])

/-- GetSupported, structured like verifyHTTP but with the fixed
action-only body. -/
def GetSupported (c : HTTPFacilitatorClient) (env : Env) (timestamp : Int)
    (requestId : String)
    (send : HttpRequest → Except String (Nat × FacAPIResponse SupportedResponseData)) :
    Except X402Error SupportedResponseData × List HttpRequest :=
  match applyAuthHeaders c.authProvider AuthHeaders.Supported
    (buildFacilitatorRequest c env timestamp requestId
      supportedRequestBody gateWeb3TargetURISupported) with
  | .error e => (.error (.GenericError ("failed to get auth headers: " ++ e)), [])
  | .ok req =>
    ((match send req with
      | .error e => .error (.GenericError ("supported request failed: " ++ e))
      | .ok (status, resp) => classifySupportedResponse status resp), [req])

/-- Modelled from the spec: types.DetectVersion is not under src/.  Per
the spec, the protocol version is "auto-detected from the payload's
shape, since payload formats differ across protocol versions": a
payload object carrying a numeric x402Version field reports it, other
objects report the legacy version 1, non-objects fail detection. -/
def DetectVersion (payloadJson : Json) : Except String Nat :=
  match payloadJson with
  | .obj fields =>
    match fields.lookup "x402Version" with
    | some (.num n) => .ok n.toNat
    | _ => .ok 1
  | _ => .error "unrecognized payload shape"

/-- Verify: detect the version from the payload, then verifyHTTP. -/
def Verify (c : HTTPFacilitatorClient) (env : Env) (timestamp : Int)
    (requestId : String)
    (send : HttpRequest → Except String (Nat × FacAPIResponse VerifyResponseData))
    (payloadJson requirementsJson : Json) :
    Except X402Error VerifyResponseData × List HttpRequest :=
  match DetectVersion payloadJson with
  | .error e => (.error (.GenericError ("failed to detect version: " ++ e)), [])
  | .ok version => verifyHTTP c env timestamp requestId send version payloadJson requirementsJson

/-- Settle: detect the version from the payload, then settleHTTP. -/
def Settle (c : HTTPFacilitatorClient) (env : Env) (timestamp : Int)
    (requestId : String)
    (send : HttpRequest → Except String (Nat × FacAPIResponse SettleResponseData))
    (payloadJson requirementsJson : Json) :
    Except X402Error SettleResponseData × List HttpRequest :=
  match DetectVersion payloadJson with
  | .error e => (.error (.GenericError ("failed to detect version: " ++ e)), [])
  | .ok version => settleHTTP c env timestamp requestId send version payloadJson requirementsJson

/-! ## Header bookkeeping lemmas -/

theorem lookup_filtered_append (k v : String) (l : List (String × String)) :
    (l.filter (fun kv => kv.1 != k) ++ [(k, v)]).lookup k = some v := by
  induction l with
  | nil => simp [List.lookup]
  | cons kv rest ih =>
    by_cases h : kv.1 = k
    · simpa [List.filter_cons, h] using ih
    · have hb : (kv.1 != k) = true := by simpa using h
      simp only [List.filter_cons, hb, if_true, List.cons_append, List.lookup]
      have : (k == kv.1) = false := by simpa using fun hh => h hh.symm
      rw [this]
      exact ih

theorem lookup_filtered_append_ne (k k2 v : String) (hne : k2 ≠ k)
    (l : List (String × String)) :
    (l.filter (fun kv => kv.1 != k) ++ [(k, v)]).lookup k2 = l.lookup k2 := by
  induction l with
  | nil =>
    have hb : (k2 == k) = false := by simpa using hne
    simp [List.lookup, hb]
  | cons kv rest ih =>
    by_cases h : kv.1 = k
    · have hb : (kv.1 != k) = false := by simpa using h
      have h2 : (k2 == kv.1) = false := by
        simp only [beq_eq_false_iff_ne, ne_eq]
        intro hcontra
        exact hne (hcontra.trans h)
      simp only [List.filter_cons, hb, if_false, List.lookup, h2]
      exact ih
    · have hb : (kv.1 != k) = true := by simpa using h
      simp only [List.filter_cons, hb, if_true, List.cons_append, List.lookup]
      by_cases h2 : k2 = kv.1
      · have : (k2 == kv.1) = true := by simpa using h2
        rw [this]
      · have : (k2 == kv.1) = false := by simpa using h2
        rw [this]
        exact ih

theorem getHeader_setHeader_same (req : HttpRequest) (k v : String) :
    getHeader (setHeader req k v) k = some v :=
  lookup_filtered_append k v req.headers

theorem getHeader_setHeader_ne (req : HttpRequest) (k k2 v : String) (hne : k2 ≠ k) :
    getHeader (setHeader req k v) k2 = getHeader req k2 :=
  lookup_filtered_append_ne k k2 v hne req.headers

theorem body_setHeader (req : HttpRequest) (k v : String) :
    (setHeader req k v).body = req.body := rfl

/-! ## Claims about the facilitator wire client -/

/-- C10: when the API-key or API-secret environment variable is unset or
whitespace-only, applyGateWeb3Signature returns the request completely
unchanged — no signing headers, no error — and the facilitator request
built in that state carries only the Content-Type header (custom
AuthProvider headers being absent here). -/
theorem c10_no_credentials_no_auth (env : Env) (timestamp : Int) (requestId : String)
    (req : HttpRequest) (body : Bytes) (targetURI : String)
    (h : trimSpace (env envGateWeb3APIKey) = "" ∨ trimSpace (env envGateWeb3APISecret) = "") :
    applyGateWeb3Signature env timestamp requestId req body targetURI = req ∧
    (∀ (c : HTTPFacilitatorClient) (bodyJson : Json) (target : String),
      (buildFacilitatorRequest c env timestamp requestId bodyJson target).headers =
        [("Content-Type", "application/json")]) := by
  have hload : loadGateWeb3Credentials env = none := by
    unfold loadGateWeb3Credentials
    rcases h with h | h <;> simp [h]
  constructor
  · unfold applyGateWeb3Signature
    rw [hload]
  · intro c bodyJson target
    unfold buildFacilitatorRequest applyGateWeb3Signature
    rw [hload]
    simp [setHeader]

/-- Witness for c10_no_credentials_no_auth with a whitespace-only
environment: the request is untouched and the built request has only
Content-Type. -/
theorem c10_no_credentials_no_auth_witness :
    applyGateWeb3Signature (fun _ => " ") 1700000000000 "rid"
      { method := "POST", url := "u", body := [], headers := [] } [] "/v1/x402/verify" =
      { method := "POST", url := "u", body := [], headers := [] } ∧
    (∀ (c : HTTPFacilitatorClient) (bodyJson : Json) (target : String),
      (buildFacilitatorRequest c (fun _ => " ") 1700000000000 "rid" bodyJson target).headers =
        [("Content-Type", "application/json")]) :=
  c10_no_credentials_no_auth (fun _ => " ") 1700000000000 "rid"
    { method := "POST", url := "u", body := [], headers := [] } [] "/v1/x402/verify"
    (Or.inl (by decide))

set_option maxRecDepth 100000 in
/-- C8: the facilitator HMAC signature is a pure function of (secret,
timestamp, signingPath, body): recomputing with all inputs fixed yields
the identical signature, and — at the spec's sensitivity test inputs —
changing exactly one of timestamp, signingPath, or body changes the
signature (universal one-input injectivity would amount to
collision-freeness of HMAC-SHA256, which no implementation satisfies
literally; the spec states this as a sensitivity test). -/
theorem c8_signature_deterministic_sensitive :
    (∀ (secret : String) (ts : Int) (path : String) (body : Bytes),
      gateWeb3Signature secret ts path body = gateWeb3Signature secret ts path body) ∧
    gateWeb3Signature "sk" 1700000000000 gateWeb3SigningPath (strBytes "b") ≠
      gateWeb3Signature "sk" 1700000000001 gateWeb3SigningPath (strBytes "b") ∧
    gateWeb3Signature "sk" 1700000000000 gateWeb3SigningPath (strBytes "b") ≠
      gateWeb3Signature "sk" 1700000000000 "/api/v1/dey" (strBytes "b") ∧
    gateWeb3Signature "sk" 1700000000000 gateWeb3SigningPath (strBytes "b") ≠
      gateWeb3Signature "sk" 1700000000000 gateWeb3SigningPath (strBytes "c") :=
  ⟨fun _ _ _ _ => rfl, by decide, by decide, by decide⟩

/-- C4: with credentials configured, every facilitator request is built
with prehash = timestamp ‖ signingPath ‖ rawBody over exactly the bytes
sent as the HTTP body, signature = base64(HMAC-SHA256(secret, prehash)),
and the signature, timestamp, api-key, per-request id, optional
passphrase and forwarded-IP headers attached. -/
theorem c4_request_signing (c : HTTPFacilitatorClient) (env : Env) (timestamp : Int)
    (requestId : String) (bodyJson : Json) (targetURI : String)
    (creds : GateWeb3Credentials) (req : HttpRequest)
    (hcreds : loadGateWeb3Credentials env = some creds)
    (hreq : req = buildFacilitatorRequest c env timestamp requestId bodyJson targetURI) :
    req.body = strBytes (serializeJson bodyJson) ∧
    getHeader req "X-Signature" = some (String.mk (base64Encode (hmacSha256
      (strBytes creds.APISecret)
      (strBytes (intToString timestamp) ++ strBytes gateWeb3SigningPath ++ req.body)))) ∧
    getHeader req "X-Timestamp" = some (intToString timestamp) ∧
    getHeader req "X-Api-Key" = some creds.APIKey ∧
    getHeader req "X-Request-Id" = some requestId ∧
    (creds.Passphrase ≠ "" → getHeader req "X-Passphrase" = some creds.Passphrase) ∧
    (creds.RealIP ≠ "" → getHeader req "X-Forwarded-For" = some creds.RealIP) ∧
    getHeader req "x-target-uri" = some (trimLeadingSlash targetURI) := by
  subst hreq
  unfold buildFacilitatorRequest applyGateWeb3Signature
  rw [hcreds]
  simp only [gateWeb3Signature, gateWeb3Prehash, body_setHeader]
  by_cases hp : creds.Passphrase = "" <;> by_cases hr : creds.RealIP = "" <;>
    simp only [hp, hr, ne_eq, not_true_eq_false, not_false_eq_true, if_true, if_false,
      ite_true, ite_false] <;>
    refine ⟨rfl, ?_, ?_, ?_, ?_, ?_, ?_, ?_⟩ <;>
    first
      | (intro hcontra
         first
           | exact hcontra.elim
           | exact absurd rfl hcontra)
      | (intro _hne
         try simp only [body_setHeader]
         repeat first
           | rw [getHeader_setHeader_same]
           | rw [getHeader_setHeader_ne _ _ _ _ (by decide)])
      | (try simp only [body_setHeader]
         repeat first
           | rw [getHeader_setHeader_same]
           | rw [getHeader_setHeader_ne _ _ _ _ (by decide)])

/-- Witness for c4_request_signing: with concrete credentials in the
environment, the built verify request carries the configured api key. -/
theorem c4_request_signing_witness :
    getHeader (buildFacilitatorRequest
      { url := "u", authProvider := none }
      (fun k => if k = "GATE_WEB3_API_KEY" then "ak"
        else if k = "GATE_WEB3_API_SECRET" then "sk" else "")
      1700000000000 "rid" (Json.obj []) gateWeb3TargetURIVerify) "X-Api-Key" = some "ak" :=
  (c4_request_signing
    { url := "u", authProvider := none }
    (fun k => if k = "GATE_WEB3_API_KEY" then "ak"
      else if k = "GATE_WEB3_API_SECRET" then "sk" else "")
    1700000000000 "rid" (Json.obj []) gateWeb3TargetURIVerify
    { APIKey := "ak", APISecret := "sk", Passphrase := "", RealIP := "127.0.0.1" }
    (buildFacilitatorRequest
      { url := "u", authProvider := none }
      (fun k => if k = "GATE_WEB3_API_KEY" then "ak"
        else if k = "GATE_WEB3_API_SECRET" then "sk" else "")
      1700000000000 "rid" (Json.obj []) gateWeb3TargetURIVerify)
    (by decide) rfl).2.2.2.1

/-- Counterexample to C5 as stated: an HTTP 200 envelope with code 1 but
an empty embedded failure reason makes the verify classifier return a
plain formatted error — not a typed business error built from the
embedded failure reason. -/
theorem c5_counterexample_untyped_error :
    classifyVerifyResponse 200
      { Code := 1, Msg := "boom",
        Data := { IsValid := false, InvalidReason := "", Payer := "" } } =
      .error (.GenericError "facilitator verify failed (http=200, code=1, msg=boom)") ∧
    isTypedBusinessError
      (.GenericError "facilitator verify failed (http=200, code=1, msg=boom)") = false := by
  constructor
  · rfl
  · rfl

/-- C5 (amended): a facilitator response with HTTP 200 and envelope code
different from 0 makes verify, settle and supported return an error and
never a success result; when the embedded failure reason is non-empty,
verify and settle return the typed business error built from it
(invalid_reason with payer for verify; error_reason with payer, network
and transaction for settle), distinguishable from the plain formatted
errors; with an empty reason, and always for supported, the error is a
plain formatted message. -/
theorem c5_business_failure_never_success :
    (∀ (status : Nat) (resp : FacAPIResponse VerifyResponseData),
      status = 200 → resp.Code ≠ 0 →
      (∃ e, classifyVerifyResponse status resp = .error e) ∧
      (resp.Data.InvalidReason ≠ "" →
        ∃ e, classifyVerifyResponse status resp = .error e ∧
          e = .VerifyError resp.Data.InvalidReason resp.Data.Payer ""
            ("facilitator returned http=" ++ natString status ++ " code=" ++
              intToString resp.Code ++ " msg=" ++ resp.Msg) ∧
          isTypedBusinessError e = true)) ∧
    (∀ (status : Nat) (resp : FacAPIResponse SettleResponseData),
      status = 200 → resp.Code ≠ 0 →
      (∃ e, classifySettleResponse status resp = .error e) ∧
      (resp.Data.ErrorReason ≠ "" →
        ∃ e, classifySettleResponse status resp = .error e ∧
          e = .SettleError resp.Data.ErrorReason resp.Data.Payer resp.Data.Network
            resp.Data.Transaction
            ("facilitator returned http=" ++ natString status ++ " code=" ++
              intToString resp.Code ++ " msg=" ++ resp.Msg) ∧
          isTypedBusinessError e = true)) ∧
    (∀ (status : Nat) (resp : FacAPIResponse SupportedResponseData),
      status = 200 → resp.Code ≠ 0 →
      classifySupportedResponse status resp =
        .error (.GenericError ("facilitator supported failed (http=" ++ natString status ++
          ", code=" ++ intToString resp.Code ++ ", msg=" ++ resp.Msg ++ ")"))) := by
  refine ⟨?_, ?_, ?_⟩
  · intro status resp h200 hcode
    subst h200
    constructor
    · by_cases hr : resp.Data.InvalidReason = ""
      · exact ⟨.GenericError ("facilitator verify failed (http=" ++ natString 200 ++
          ", code=" ++ intToString resp.Code ++ ", msg=" ++ resp.Msg ++ ")"),
          by simp [classifyVerifyResponse, hcode, hr]⟩
      · exact ⟨.VerifyError resp.Data.InvalidReason resp.Data.Payer ""
          ("facilitator returned http=" ++ natString 200 ++ " code=" ++
            intToString resp.Code ++ " msg=" ++ resp.Msg),
          by simp [classifyVerifyResponse, hcode, hr]⟩
    · intro hr
      exact ⟨.VerifyError resp.Data.InvalidReason resp.Data.Payer ""
        ("facilitator returned http=" ++ natString 200 ++ " code=" ++
          intToString resp.Code ++ " msg=" ++ resp.Msg),
        by simp [classifyVerifyResponse, hcode, hr], rfl, rfl⟩
  · intro status resp h200 hcode
    subst h200
    constructor
    · by_cases hr : resp.Data.ErrorReason = ""
      · exact ⟨.GenericError ("facilitator settle failed (http=" ++ natString 200 ++
          ", code=" ++ intToString resp.Code ++ ", msg=" ++ resp.Msg ++ ")"),
          by simp [classifySettleResponse, hcode, hr]⟩
      · exact ⟨.SettleError resp.Data.ErrorReason resp.Data.Payer resp.Data.Network
          resp.Data.Transaction
          ("facilitator returned http=" ++ natString 200 ++ " code=" ++
            intToString resp.Code ++ " msg=" ++ resp.Msg),
          by simp [classifySettleResponse, hcode, hr]⟩
    · intro hr
      exact ⟨.SettleError resp.Data.ErrorReason resp.Data.Payer resp.Data.Network
        resp.Data.Transaction
        ("facilitator returned http=" ++ natString 200 ++ " code=" ++
          intToString resp.Code ++ " msg=" ++ resp.Msg),
        by simp [classifySettleResponse, hcode, hr], rfl, rfl⟩
  · intro status resp h200 hcode
    subst h200
    simp [classifySupportedResponse, hcode]

/-- Witness for c5_business_failure_never_success at a concrete verify
envelope with a non-empty invalid_reason. -/
theorem c5_business_failure_never_success_witness :
    ∃ e, classifyVerifyResponse 200
      { Code := 3, Msg := "m",
        Data := { IsValid := false, InvalidReason := "expired", Payer := "0xp" } } =
        .error e ∧
      e = .VerifyError "expired" "0xp" ""
        ("facilitator returned http=" ++ natString 200 ++ " code=" ++
          intToString 3 ++ " msg=" ++ "m") ∧
      isTypedBusinessError e = true :=
  (c5_business_failure_never_success.1 200
    { Code := 3, Msg := "m",
      Data := { IsValid := false, InvalidReason := "expired", Payer := "0xp" } }
    rfl (by decide)).2 (by decide)

theorem method_setHeader (req : HttpRequest) (k v : String) :
    (setHeader req k v).method = req.method := rfl

theorem url_setHeader (req : HttpRequest) (k v : String) :
    (setHeader req k v).url = req.url := rfl

theorem method_setHeaders (l : List (String × String)) (req : HttpRequest) :
    (setHeaders req l).method = req.method := by
  induction l generalizing req with
  | nil => rfl
  | cons kv rest ih => rw [setHeaders, ih, method_setHeader]

theorem url_setHeaders (l : List (String × String)) (req : HttpRequest) :
    (setHeaders req l).url = req.url := by
  induction l generalizing req with
  | nil => rfl
  | cons kv rest ih => rw [setHeaders, ih, url_setHeader]

theorem body_setHeaders (l : List (String × String)) (req : HttpRequest) :
    (setHeaders req l).body = req.body := by
  induction l generalizing req with
  | nil => rfl
  | cons kv rest ih => rw [setHeaders, ih, body_setHeader]

theorem buildFacilitatorRequest_shape (c : HTTPFacilitatorClient) (env : Env)
    (timestamp : Int) (requestId : String) (bodyJson : Json) (targetURI : String) :
    (buildFacilitatorRequest c env timestamp requestId bodyJson targetURI).method = "POST" ∧
    (buildFacilitatorRequest c env timestamp requestId bodyJson targetURI).url = c.url ∧
    (buildFacilitatorRequest c env timestamp requestId bodyJson targetURI).body =
      strBytes (serializeJson bodyJson) := by
  unfold buildFacilitatorRequest applyGateWeb3Signature
  cases loadGateWeb3Credentials env with
  | none => exact ⟨rfl, rfl, rfl⟩
  | some creds =>
    by_cases hp : creds.Passphrase ≠ "" <;> by_cases hr : creds.RealIP ≠ "" <;>
      simp only [hp, hr, if_true, if_false, ite_true, ite_false, ite_not] <;>
      exact ⟨rfl, rfl, rfl⟩

/-- C6: each of verify, settle and supported issues exactly one HTTP
POST (the request trace is a singleton) to the single configured
facilitator URL, with body json action/params where the action tag is
x402.verify / x402.settle / x402.supported respectively; for verify and
settle, params carries the auto-detected protocol version plus the
payload and requirements exactly as the generic structured values they
parsed to, so unknown fields pass through unchanged; and the public
Verify/Settle entry points feed the version detected from the payload
into the wire call.  The auth provider is assumed not to fail (on auth
failure no request is issued at all). -/
theorem c6_single_post_action_dispatch (c : HTTPFacilitatorClient) (env : Env)
    (timestamp : Int) (requestId : String)
    (hauth : c.authProvider = none ∨ ∃ hs, c.authProvider = some (.ok hs)) :
    (∀ (send : HttpRequest → Except String (Nat × FacAPIResponse VerifyResponseData))
       (version : Nat) (payloadJson requirementsJson : Json),
      ∃ r, (verifyHTTP c env timestamp requestId send version payloadJson
          requirementsJson).2 = [r] ∧
        r.method = "POST" ∧ r.url = c.url ∧
        r.body = strBytes (serializeJson (Json.obj [("action", Json.str "x402.verify"),
          ("params", Json.obj [("paymentPayload", payloadJson),
            ("paymentRequirements", requirementsJson),
            ("x402Version", Json.num version)])]))) ∧
    (∀ (send : HttpRequest → Except String (Nat × FacAPIResponse SettleResponseData))
       (version : Nat) (payloadJson requirementsJson : Json),
      ∃ r, (settleHTTP c env timestamp requestId send version payloadJson
          requirementsJson).2 = [r] ∧
        r.method = "POST" ∧ r.url = c.url ∧
        r.body = strBytes (serializeJson (Json.obj [("action", Json.str "x402.settle"),
          ("params", Json.obj [("paymentPayload", payloadJson),
            ("paymentRequirements", requirementsJson),
            ("x402Version", Json.num version)])]))) ∧
    (∀ (send : HttpRequest → Except String (Nat × FacAPIResponse SupportedResponseData)),
      ∃ r, (GetSupported c env timestamp requestId send).2 = [r] ∧
        r.method = "POST" ∧ r.url = c.url ∧
        r.body = strBytes (serializeJson (Json.obj [("action", Json.str "x402.supported"),
          ("params", Json.obj [])]))) ∧
    (∀ (send : HttpRequest → Except String (Nat × FacAPIResponse VerifyResponseData))
       (version : Nat) (payloadJson requirementsJson : Json),
      DetectVersion payloadJson = .ok version →
      Verify c env timestamp requestId send payloadJson requirementsJson =
        verifyHTTP c env timestamp requestId send version payloadJson requirementsJson) ∧
    (∀ (send : HttpRequest → Except String (Nat × FacAPIResponse SettleResponseData))
       (version : Nat) (payloadJson requirementsJson : Json),
      DetectVersion payloadJson = .ok version →
      Settle c env timestamp requestId send payloadJson requirementsJson =
        settleHTTP c env timestamp requestId send version payloadJson requirementsJson) := by
  have hbuild := fun bodyJson targetURI =>
    buildFacilitatorRequest_shape c env timestamp requestId bodyJson targetURI
  have happly : ∀ (bodyJson : Json) (targetURI : String)
      (pick : AuthHeaders → List (String × String)),
      ∃ req, applyAuthHeaders c.authProvider pick
          (buildFacilitatorRequest c env timestamp requestId bodyJson targetURI) = .ok req ∧
        req.method = "POST" ∧ req.url = c.url ∧
        req.body = strBytes (serializeJson bodyJson) := by
    intro bodyJson targetURI pick
    rcases hauth with hauth | ⟨hs, hauth⟩
    · exact ⟨buildFacilitatorRequest c env timestamp requestId bodyJson targetURI,
        by rw [hauth]; exact rfl,
        (hbuild bodyJson targetURI).1, (hbuild bodyJson targetURI).2.1,
        (hbuild bodyJson targetURI).2.2⟩
    · refine ⟨setHeaders (buildFacilitatorRequest c env timestamp requestId bodyJson
          targetURI) (pick hs),
        by rw [hauth]; exact rfl, ?_, ?_, ?_⟩
      · rw [method_setHeaders]
        exact (hbuild bodyJson targetURI).1
      · rw [url_setHeaders]
        exact (hbuild bodyJson targetURI).2.1
      · rw [body_setHeaders]
        exact (hbuild bodyJson targetURI).2.2
  refine ⟨?_, ?_, ?_, ?_, ?_⟩
  · intro send version payloadJson requirementsJson
    obtain ⟨req, ha, hm, hu, hb⟩ :=
      happly (verifyRequestBody version payloadJson requirementsJson)
        gateWeb3TargetURIVerify AuthHeaders.Verify
    refine ⟨req, ?_, hm, hu, hb⟩
    unfold verifyHTTP
    rw [ha]
  · intro send version payloadJson requirementsJson
    obtain ⟨req, ha, hm, hu, hb⟩ :=
      happly (settleRequestBody version payloadJson requirementsJson)
        gateWeb3TargetURISettle AuthHeaders.Settle
    refine ⟨req, ?_, hm, hu, hb⟩
    unfold settleHTTP
    rw [ha]
  · intro send
    obtain ⟨req, ha, hm, hu, hb⟩ :=
      happly supportedRequestBody gateWeb3TargetURISupported AuthHeaders.Supported
    refine ⟨req, ?_, hm, hu, hb⟩
    unfold GetSupported
    rw [ha]
  · intro send version payloadJson requirementsJson hdetect
    unfold Verify
    rw [hdetect]
  · intro send version payloadJson requirementsJson hdetect
    unfold Settle
    rw [hdetect]

/-- Witness for c6_single_post_action_dispatch: a concrete verify call
with no auth provider issues exactly one POST whose body is the
serialized action/params envelope around the given payload object. -/
theorem c6_single_post_action_dispatch_witness :
    ∃ r, (verifyHTTP { url := "u", authProvider := none } (fun _ => "") 0 "rid"
        (fun _ => .error "down") 2
        (Json.obj [("mystery", Json.str "kept")]) (Json.obj [])).2 = [r] ∧
      r.method = "POST" ∧ r.url = "u" ∧
      r.body = strBytes (serializeJson (Json.obj [("action", Json.str "x402.verify"),
        ("params", Json.obj [("paymentPayload", Json.obj [("mystery", Json.str "kept")]),
          ("paymentRequirements", Json.obj []),
          ("x402Version", Json.num 2)])])) :=
  (c6_single_post_action_dispatch { url := "u", authProvider := none } (fun _ => "") 0 "rid"
    (Or.inl rfl)).1 (fun _ => .error "down") 2
    (Json.obj [("mystery", Json.str "kept")]) (Json.obj [])

/-! ## Lemmas about the scheme client's signing paths -/

theorem intToString_ofNat (n : Nat) : intToString ((n : Nat) : Int) = natString n := by
  rw [intToString, if_neg (by omega)]
  simp [natString]

theorem bigIntSetString10_natString (n : Nat) :
    bigIntSetString10 (natString n) = some ((n : Nat) : Int) := by
  rw [← intToString_ofNat]
  exact bigIntSetString10_intToString _

/-- On any authorization whose numeric fields are printed integers,
signWithDomainSeparator always reaches the signing capability with some
digest (the big.Int reparses cannot fail). -/
theorem signWithDomainSeparator_total (keccak256 : Bytes → Bytes)
    (signer : ClientEvmSigner) (auth : ExactEIP3009Authorization) (ds : Bytes)
    (value : Int) (va vb : Nat)
    (hv : auth.Value = intToString value) (ha : auth.ValidAfter = natString va)
    (hb : auth.ValidBefore = natString vb) :
    ∃ d, signWithDomainSeparator keccak256 signer auth ds =
      some (signer.signDigestResult d) := by
  rw [signWithDomainSeparator, hv, ha, hb, bigIntSetString10_intToString,
    bigIntSetString10_natString, bigIntSetString10_natString]
  exact ⟨_, rfl⟩

/-- signAuthorization always reaches the signing capability (through the
chain-queried domain separator or the typed-data fallback), performing
exactly one chain query when an ethclient is configured and none
otherwise. -/
theorem signAuthorization_total (keccak256 : Bytes → Bytes) (c : ExactEvmScheme)
    (auth : ExactEIP3009Authorization) (chainID : Nat)
    (verifyingContract tokenName tokenVersion : String)
    (value : Int) (va vb : Nat)
    (hv : auth.Value = intToString value) (ha : auth.ValidAfter = natString va)
    (hb : auth.ValidBefore = natString vb) :
    ∃ r, signAuthorization keccak256 c auth chainID verifyingContract tokenName
        tokenVersion = (some r, if c.ethClient.isSome then 1 else 0) ∧
      ((∃ d, r = c.signer.signDigestResult d) ∨
       (∃ dom tys pt m, r = c.signer.signTypedDataResult dom tys pt m)) := by
  cases hec : c.ethClient with
  | none =>
    simp only [signAuthorization, hec, Option.isSome_none, Bool.false_eq_true,
      if_false]
    refine ⟨_, rfl, ?_⟩
    exact Or.inr ⟨_, _, _, _, rfl⟩
  | some callContract =>
    cases hq : queryDomainSeparator callContract verifyingContract with
    | error e =>
      simp only [signAuthorization, hec, hq, Option.isSome_some, if_true]
      refine ⟨_, rfl, ?_⟩
      exact Or.inr ⟨_, _, _, _, rfl⟩
    | ok domainSep =>
      obtain ⟨d, hd⟩ := signWithDomainSeparator_total keccak256 c.signer auth domainSep
        value va vb hv ha hb
      simp only [signAuthorization, hec, hq, Option.isSome_some, if_true]
      rw [hd]
      refine ⟨c.signer.signDigestResult d, rfl, ?_⟩
      exact Or.inl ⟨d, rfl⟩

/-- C3: on network gatelayer_testnet with the pinned asset (explicitly
or as the network default), every CreatePaymentPayload call signs with
the one pinned 32-byte DOMAIN_SEPARATOR constant (so any two calls use
identical bytes) and performs zero chain queries, provided the signing
capability succeeds; the produced signature is exactly the signer's
output on the digest built from that constant. -/
theorem c3_pinned_separator_no_chain_query (keccak256 : Bytes → Bytes)
    (c : ExactEvmScheme) (nonce : String) (now : Nat)
    (requirements : PaymentRequirements) (value : Int) (sig : Bytes)
    (auth : ExactEIP3009Authorization)
    (hnet : requirements.Network = "gatelayer_testnet")
    (hasset : requirements.Asset = "" ∨ requirements.Asset = pinnedAssetAddress)
    (hamount : bigIntSetString10 requirements.Amount = some value)
    (hauth : auth =
      { From := c.signer.address, To := requirements.PayTo,
        Value := intToString value, ValidAfter := natString now,
        ValidBefore := natString (now + 3600), Nonce := nonce })
    (hsign : signWithDomainSeparator keccak256 c.signer auth pinnedDomainSeparator =
      some (.ok sig)) :
    CreatePaymentPayload keccak256 c nonce now requirements =
      some (.ok
        { X402Version := 2,
          Payload := { Signature := bytesToHex sig, Authorization := auth } }, 0) ∧
    pinnedDomainSeparator = hexDecodePartial pinnedDomainSeparatorHex.data ∧
    pinnedDomainSeparator.length = 32 := by
  obtain ⟨net, asset, amount, payTo, extra⟩ := requirements
  obtain rfl : net = "gatelayer_testnet" := hnet
  simp only at hamount hauth hsign
  have hai : GetAssetInfo "gatelayer_testnet" asset =
      .ok { Address := pinnedAssetAddress, Name := "USDC", Version := "2",
            Decimals := 6 } := by
    rcases hasset with h | h <;> simp only at h <;> (obtain rfl : asset = _ := h) <;> rfl
  refine ⟨?_, rfl, rfl⟩
  simp only [CreatePaymentPayload, hai, hamount]
  rw [show GetEvmChainId "gatelayer_testnet" = .ok 10087 from rfl]
  simp only [usesPinnedDomainSeparator]
  rw [if_pos (show (("gatelayer_testnet" == "gatelayer_testnet") &&
    (pinnedAssetAddress == pinnedAssetAddress)) = true from by decide)]
  rw [if_pos (show pinnedDomainSeparator.length = 32 from by decide), ← hauth, hsign]

/-- Witness for c3_pinned_separator_no_chain_query at fully concrete
inputs: the payload is produced with zero chain queries. -/
theorem c3_pinned_separator_no_chain_query_witness :
    CreatePaymentPayload (fun bs => List.replicate 32 (bs.length % 256))
      { signer := { address := "0x1111111111111111111111111111111111111111",
                    signDigestResult := fun d => .ok d,
                    signTypedDataResult := fun _ _ _ _ => .ok [] },
        ethClient := none }
      "0x3333333333333333333333333333333333333333333333333333333333333333" 1000
      { Network := "gatelayer_testnet", Asset := "", Amount := "1000",
        PayTo := "0x2222222222222222222222222222222222222222", Extra := none } =
      some (.ok
        { X402Version := 2,
          Payload :=
            { Signature := bytesToHex (List.replicate 32 (66 % 256)),
              Authorization :=
                { From := "0x1111111111111111111111111111111111111111",
                  To := "0x2222222222222222222222222222222222222222",
                  Value := intToString 1000, ValidAfter := natString 1000,
                  ValidBefore := natString (1000 + 3600),
                  Nonce := "0x3333333333333333333333333333333333333333333333333333333333333333" } } },
        0) :=
  (c3_pinned_separator_no_chain_query (fun bs => List.replicate 32 (bs.length % 256))
    { signer := { address := "0x1111111111111111111111111111111111111111",
                  signDigestResult := fun d => .ok d,
                  signTypedDataResult := fun _ _ _ _ => .ok [] },
      ethClient := none }
    "0x3333333333333333333333333333333333333333333333333333333333333333" 1000
    { Network := "gatelayer_testnet", Asset := "", Amount := "1000",
      PayTo := "0x2222222222222222222222222222222222222222", Extra := none }
    1000 (List.replicate 32 (66 % 256))
    { From := "0x1111111111111111111111111111111111111111",
      To := "0x2222222222222222222222222222222222222222",
      Value := intToString 1000, ValidAfter := natString 1000,
      ValidBefore := natString (1000 + 3600),
      Nonce := "0x3333333333333333333333333333333333333333333333333333333333333333" }
    rfl (Or.inl rfl) (by decide) rfl rfl).1

/-- C7: whenever the signing capability fails (both its digest and
typed-data entry points return errors), CreatePaymentPayload surfaces a
FailedToSignAuthorization error wrapping the signer's message — never a
payload with a fabricated signature. -/
theorem c7_signer_failure_propagates (keccak256 : Bytes → Bytes) (c : ExactEvmScheme)
    (nonce : String) (now : Nat) (requirements : PaymentRequirements)
    (value : Int) (em : String) (chainID : Nat) (assetInfo : AssetInfo)
    (hcid : GetEvmChainId requirements.Network = .ok chainID)
    (hai : GetAssetInfo requirements.Network requirements.Asset = .ok assetInfo)
    (hamount : bigIntSetString10 requirements.Amount = some value)
    (hsd : c.signer.signDigestResult = fun _ => .error em)
    (hst : c.signer.signTypedDataResult = fun _ _ _ _ => .error em) :
    CreatePaymentPayload keccak256 c nonce now requirements =
      some (.error (.FailedToSignAuthorization em),
        if c.ethClient.isSome then 1 else 0) := by
  obtain ⟨r, hr, hshape⟩ := signAuthorization_total keccak256 c
    { From := c.signer.address, To := requirements.PayTo,
      Value := intToString value, ValidAfter := natString now,
      ValidBefore := natString (now + 3600), Nonce := nonce }
    chainID assetInfo.Address
    (match requirements.Extra with
      | some extra => (extra.lookup "name").getD assetInfo.Name
      | none => assetInfo.Name)
    (match requirements.Extra with
      | some extra => (extra.lookup "version").getD assetInfo.Version
      | none => assetInfo.Version)
    value now (now + 3600) rfl rfl rfl
  have hrerr : r = .error em := by
    rcases hshape with ⟨d, hd⟩ | ⟨dom, tys, pt, m, hm⟩
    · rw [hd, hsd]
    · rw [hm, hst]
  subst hrerr
  obtain ⟨d0, hd0⟩ := signWithDomainSeparator_total keccak256 c.signer
    { From := c.signer.address, To := requirements.PayTo,
      Value := intToString value, ValidAfter := natString now,
      ValidBefore := natString (now + 3600), Nonce := nonce }
    pinnedDomainSeparator value now (now + 3600) rfl rfl rfl
  simp only [CreatePaymentPayload, hcid, hai, hamount]
  by_cases hpin : usesPinnedDomainSeparator requirements.Network assetInfo
  · simp only [hpin, if_true]
    rw [if_pos (show pinnedDomainSeparator.length = 32 from by decide), hd0, hsd]
    simp only [hr]
  · rw [if_neg hpin, hr]

/-- Witness for c7_signer_failure_propagates with a concretely failing
signer on the pinned network: the error is surfaced, not swallowed. -/
theorem c7_signer_failure_propagates_witness :
    CreatePaymentPayload (fun bs => List.replicate 32 (bs.length % 256))
      { signer := { address := "0x1111111111111111111111111111111111111111",
                    signDigestResult := fun _ => .error "user rejected",
                    signTypedDataResult := fun _ _ _ _ => .error "user rejected" },
        ethClient := none }
      "0x3333333333333333333333333333333333333333333333333333333333333333" 1000
      { Network := "gatelayer_testnet", Asset := "", Amount := "1000",
        PayTo := "0x2222222222222222222222222222222222222222", Extra := none } =
      some (.error (.FailedToSignAuthorization "user rejected"), 0) :=
  c7_signer_failure_propagates (fun bs => List.replicate 32 (bs.length % 256))
    { signer := { address := "0x1111111111111111111111111111111111111111",
                  signDigestResult := fun _ => .error "user rejected",
                  signTypedDataResult := fun _ _ _ _ => .error "user rejected" },
      ethClient := none }
    "0x3333333333333333333333333333333333333333333333333333333333333333" 1000
    { Network := "gatelayer_testnet", Asset := "", Amount := "1000",
      PayTo := "0x2222222222222222222222222222222222222222", Extra := none }
    1000 "user rejected" 10087
    { Address := "0x9be8Df37C788B244cFc28E46654aD5Ec28a880AF", Name := "USDC",
      Version := "2", Decimals := 6 }
    rfl rfl (by decide) rfl rfl

/-- C9: the pinned-domain-separator shortcut is guarded by byte-for-byte
string equality on both the network name and the resolved asset address
(first conjunct); the CAIP-2 spelling eip155:10087 is configured with
the same chain id and the same default asset as gatelayer_testnet
(second and third conjuncts); yet on eip155:10087 the pinned path is
never taken: CreatePaymentPayload goes through the standard
signAuthorization path, performing a chain query exactly when an
ethclient is configured (count 1, against the pinned path's 0). -/
theorem c9_pinned_shortcut_exact_match_only (keccak256 : Bytes → Bytes)
    (c : ExactEvmScheme) (nonce : String) (now : Nat)
    (requirements : PaymentRequirements) (value : Int)
    (hnet : requirements.Network = "eip155:10087")
    (hasset : requirements.Asset = "" ∨ requirements.Asset = pinnedAssetAddress)
    (hamount : bigIntSetString10 requirements.Amount = some value) :
    (∀ (network : String) (assetInfo : AssetInfo),
      usesPinnedDomainSeparator network assetInfo = true ↔
        (network = "gatelayer_testnet" ∧ assetInfo.Address = pinnedAssetAddress)) ∧
    GetEvmChainId "eip155:10087" = GetEvmChainId "gatelayer_testnet" ∧
    GetAssetInfo "eip155:10087" "" = GetAssetInfo "gatelayer_testnet" "" ∧
    ∃ result, CreatePaymentPayload keccak256 c nonce now requirements =
      some (result, if c.ethClient.isSome then 1 else 0) := by
  refine ⟨?_, rfl, rfl, ?_⟩
  · intro network assetInfo
    simp [usesPinnedDomainSeparator]
  · obtain ⟨net, asset, amount, payTo, extra⟩ := requirements
    obtain rfl : net = "eip155:10087" := hnet
    simp only at hamount hasset
    have hai : GetAssetInfo "eip155:10087" asset =
        .ok { Address := pinnedAssetAddress, Name := "USDC", Version := "2",
              Decimals := 6 } := by
      rcases hasset with h | h <;> (obtain rfl : asset = _ := h) <;> rfl
    obtain ⟨r, hr, _⟩ := signAuthorization_total keccak256 c
      { From := c.signer.address, To := payTo,
        Value := intToString value, ValidAfter := natString now,
        ValidBefore := natString (now + 3600), Nonce := nonce }
      10087 pinnedAssetAddress
      (match extra with
        | some extra => (extra.lookup "name").getD "USDC"
        | none => "USDC")
      (match extra with
        | some extra => (extra.lookup "version").getD "2"
        | none => "2")
      value now (now + 3600) rfl rfl rfl
    simp only [CreatePaymentPayload, hai, hamount,
      show GetEvmChainId "eip155:10087" = .ok 10087 from rfl]
    rw [if_neg (show ¬ (usesPinnedDomainSeparator "eip155:10087"
      { Address := pinnedAssetAddress, Name := "USDC", Version := "2",
        Decimals := 6 } = true) from by decide)]
    rw [hr]
    cases r with
    | error e => exact ⟨_, rfl⟩
    | ok sig => exact ⟨_, rfl⟩

/-- Witness for c9_pinned_shortcut_exact_match_only with a configured
ethclient: on eip155:10087 the standard path runs and performs exactly
one chain query. -/
theorem c9_pinned_shortcut_exact_match_only_witness :
    ∃ result, CreatePaymentPayload (fun bs => List.replicate 32 (bs.length % 256))
      { signer := { address := "0x1111111111111111111111111111111111111111",
                    signDigestResult := fun d => .ok d,
                    signTypedDataResult := fun _ _ _ _ => .ok [] },
        ethClient := some (fun _ => .ok (List.replicate 32 5)) }
      "0x3333333333333333333333333333333333333333333333333333333333333333" 1000
      { Network := "eip155:10087", Asset := "", Amount := "1000",
        PayTo := "0x2222222222222222222222222222222222222222", Extra := none } =
      some (result, 1) :=
  (c9_pinned_shortcut_exact_match_only (fun bs => List.replicate 32 (bs.length % 256))
    { signer := { address := "0x1111111111111111111111111111111111111111",
                  signDigestResult := fun d => .ok d,
                  signTypedDataResult := fun _ _ _ _ => .ok [] },
      ethClient := some (fun _ => .ok (List.replicate 32 5)) }
    "0x3333333333333333333333333333333333333333333333333333333333333333" 1000
    { Network := "eip155:10087", Asset := "", Amount := "1000",
      PayTo := "0x2222222222222222222222222222222222222222", Extra := none }
    1000 rfl (Or.inl rfl) (by decide)).2.2.2

/-- C2 (code-bug evidence): amounts outside big.Int base-10 lexical form
(12.5, empty) do fail with InvalidAmount and no payload is produced;
but the negative amount -1, which the spec requires to fail with
InvalidAmount, is accepted by big.Int SetString and CreatePaymentPayload
returns a signed payload carrying Value -1 (first three conjuncts,
evaluated on concrete inputs); worse, because big.Int Bytes() encodes
the absolute value, the digest signed for Value -1 is byte-identical to
the digest signed for Value 1, for every keccak, signer and domain
separator (last conjunct). -/
theorem c2_negative_amount_not_rejected :
    CreatePaymentPayload (fun bs => List.replicate 32 (bs.length % 256))
      { signer := { address := "0x1111111111111111111111111111111111111111",
                    signDigestResult := fun d => .ok d,
                    signTypedDataResult := fun _ _ _ _ => .ok [] },
        ethClient := none }
      "0x3333333333333333333333333333333333333333333333333333333333333333" 1000
      { Network := "gatelayer_testnet", Asset := "", Amount := "12.5",
        PayTo := "0x2222222222222222222222222222222222222222", Extra := none } =
      some (.error (.InvalidAmount "12.5"), 0) ∧
    CreatePaymentPayload (fun bs => List.replicate 32 (bs.length % 256))
      { signer := { address := "0x1111111111111111111111111111111111111111",
                    signDigestResult := fun d => .ok d,
                    signTypedDataResult := fun _ _ _ _ => .ok [] },
        ethClient := none }
      "0x3333333333333333333333333333333333333333333333333333333333333333" 1000
      { Network := "gatelayer_testnet", Asset := "", Amount := "",
        PayTo := "0x2222222222222222222222222222222222222222", Extra := none } =
      some (.error (.InvalidAmount ""), 0) ∧
    CreatePaymentPayload (fun bs => List.replicate 32 (bs.length % 256))
      { signer := { address := "0x1111111111111111111111111111111111111111",
                    signDigestResult := fun d => .ok d,
                    signTypedDataResult := fun _ _ _ _ => .ok [] },
        ethClient := none }
      "0x3333333333333333333333333333333333333333333333333333333333333333" 1000
      { Network := "gatelayer_testnet", Asset := "", Amount := "-1",
        PayTo := "0x2222222222222222222222222222222222222222", Extra := none } =
      some (.ok
        { X402Version := 2,
          Payload :=
            { Signature := bytesToHex (List.replicate 32 (66 % 256)),
              Authorization :=
                { From := "0x1111111111111111111111111111111111111111",
                  To := "0x2222222222222222222222222222222222222222",
                  Value := "-1", ValidAfter := "1000", ValidBefore := "4600",
                  Nonce := "0x3333333333333333333333333333333333333333333333333333333333333333" } } },
        0) ∧
    (∀ (keccak256 : Bytes → Bytes) (signer : ClientEvmSigner) (ds : Bytes)
       (auth : ExactEIP3009Authorization),
      signWithDomainSeparator keccak256 signer { auth with Value := "-1" } ds =
        signWithDomainSeparator keccak256 signer { auth with Value := "1" } ds) := by
  refine ⟨rfl, rfl, rfl, ?_⟩
  intro keccak256 signer ds auth
  simp only [signWithDomainSeparator]
  rw [show bigIntSetString10 "-1" = some (-1 : Int) from by decide,
    show bigIntSetString10 "1" = some (1 : Int) from by decide]
  cases hva : bigIntSetString10 auth.ValidAfter <;>
    cases hvb : bigIntSetString10 auth.ValidBefore <;> rfl

end X402
